import Mathlib

/-!
# SecureGuard-Pro: the sliders, the form, the gallery and the theme of `script.js`

A shallow embedding of five classes of `src/script.js`: the two carousels
(`HeroSliderManager`, lines 271-432, and `TestimonialsManager`, lines 795-978),
the validation of `ContactFormManager` (lines 981-1251), the rendering of
`GalleryManager` (lines 620-792) and `ThemeManager` (lines 2-34), together with
the small part of the browser they use: array indexing with a JavaScript number,
the `active` CSS class of an element, the interval timers of `setInterval` /
`clearInterval` under a simulated clock, strings as UTF-16 code units, elements
looked up by id, and `localStorage`.
-/

/-! ## JavaScript numbers used as indices -/

/-- The JavaScript numbers that the sliders compute with: integers, and `NaN`
(the value of `x % 0`). -/
inductive JsNum where
  | int (k : Int)
  | nan
  deriving DecidableEq, Repr

namespace JsNum

/-- JavaScript `a + b`. -/
def add : JsNum → JsNum → JsNum
  | int a, int b => int (a + b)
  | _, _ => nan

/-- JavaScript `a - b`. -/
def sub : JsNum → JsNum → JsNum
  | int a, int b => int (a - b)
  | _, _ => nan

/-- JavaScript `a % b`: the remainder takes the sign of the dividend, and a zero
divisor gives `NaN`. -/
def rem : JsNum → JsNum → JsNum
  | int a, int b => if b = 0 then nan else int (Int.tmod a b)
  | _, _ => nan

end JsNum

/-- The statement `xs[i].classList.add("active")` (`b = true`) or
`xs[i].classList.remove("active")` (`b = false`) over the list of `active` flags
of the elements: `none` when `xs[i]` is `undefined` (a negative index, an index
past the end, or `NaN`), where reading `.classList` throws a `TypeError`. -/
def setActive (xs : List Bool) (i : JsNum) (b : Bool) : Option (List Bool) :=
  match i with
  | .int k => if 0 ≤ k ∧ k.toNat < xs.length then some (xs.set k.toNat b) else none
  | .nan => none

/-- How a method call ends: normally, or with an uncaught `TypeError`; either way
the object is left in the state reached so far. -/
inductive Outcome (σ : Type) where
  | ok (s : σ)
  | typeError (s : σ)
  deriving DecidableEq, Repr

/-- The state of the object when the call ended. -/
def Outcome.state {σ : Type} : Outcome σ → σ
  | .ok s => s
  | .typeError s => s

/-- Whether the call ended normally. -/
def Outcome.isOk {σ : Type} : Outcome σ → Bool
  | .ok _ => true
  | .typeError _ => false

/-! ## Interval timers under a simulated clock -/

/-- An armed interval: its handle, the time of its next fire and its period. -/
structure Timer where
  id : Nat
  due : Nat
  delay : Nat
  deriving DecidableEq, Repr

/-- The timer side of the browser as one controller sees it: the current time in
milliseconds, the next handle `setInterval` will return, and the intervals that
were created and not yet cleared. -/
structure Clock where
  now : Nat
  nextId : Nat
  timers : List Timer
  deriving DecidableEq, Repr

namespace Clock

/-- A browser that has not created a timer yet; handles start at 1, as the
handles of `setInterval` are positive integers. -/
def fresh : Clock := { now := 0, nextId := 1, timers := [] }

/-- The call `setInterval(callback, delay)`: a new interval is armed, first due
`delay` from now, and its handle is returned. -/
def setInterval (c : Clock) (delay : Nat) : Nat × Clock :=
  (c.nextId,
   { c with nextId := c.nextId + 1,
            timers := c.timers ++ [{ id := c.nextId, due := c.now + delay, delay := delay }] })

/-- The call `clearInterval(id)`. -/
def clearInterval (c : Clock) (id : Nat) : Clock :=
  { c with timers := c.timers.filter (fun t => t.id != id) }

/-- The interval that fires next: the one due earliest, and on a tie the one
that was scheduled first (`timers` is in the order of scheduling). -/
def nextTimer (c : Clock) : Option Timer :=
  c.timers.foldl
    (fun best t =>
      match best with
      | none => some t
      | some b => if t.due < b.due then some t else some b)
    none

/-- The clock moves to the due time of a timer that is about to fire. -/
def moveTo (c : Clock) (t : Nat) : Clock := { c with now := max c.now t }

/-- After its callback ran, an interval that is still armed is scheduled again
one period from now, behind the intervals that the callback created. -/
def reschedule (c : Clock) (id : Nat) : Clock :=
  let again := (c.timers.filter (fun t => t.id == id)).map
    (fun t => Timer.mk t.id (c.now + t.delay) t.delay)
  { c with timers := c.timers.filter (fun t => t.id != id) ++ again }

/-- The number of armed intervals. -/
def armed (c : Clock) : Nat := c.timers.length

end Clock

/-! ## HeroSliderManager (script.js, lines 271-432) -/

/-- The fields of a `HeroSliderManager` with the part of the page it acts on:
the `active` flag of every `.slide` and of every `.indicator`, the class name of
the play/pause icon when that element exists, and the timers. -/
structure HeroSliderManager where
  slides : List Bool
  indicators : List Bool
  playPauseIcon : Option String
  currentSlide : JsNum
  isPlaying : Bool
  autoplayInterval : Option Nat
  autoplayDelay : Nat
  env : Clock
  deriving DecidableEq, Repr

namespace HeroSliderManager

/-- Source `stopAutoplay` (lines 377-382). A stored handle is a positive integer,
hence truthy; `null` is falsy. -/
def stopAutoplay (s : HeroSliderManager) : HeroSliderManager :=
  match s.autoplayInterval with
  | some id => { s with env := s.env.clearInterval id, autoplayInterval := none }
  | none => s

/-- Source `startAutoplay` (lines 369-375); the callback of the interval is
`nextSlide`, run by `timerFire` below. -/
def startAutoplay (s : HeroSliderManager) : HeroSliderManager :=
  if s.isPlaying then
    let r := s.env.setInterval s.autoplayDelay
    { s with env := r.2, autoplayInterval := some r.1 }
  else s

/-- Source `restartAutoplay` (lines 384-387). -/
def restartAutoplay (s : HeroSliderManager) : HeroSliderManager :=
  startAutoplay (stopAutoplay s)

/-- Source `goToSlide` (lines 341-357), statement by statement. -/
def goToSlide (s : HeroSliderManager) (index : JsNum) : Outcome HeroSliderManager :=
  match setActive s.slides s.currentSlide false with
  | none => .typeError s
  | some sl =>
    let s1 := { s with slides := sl }
    match setActive s1.indicators s1.currentSlide false with
    | none => .typeError s1
    | some ind =>
      let s2 := { s1 with indicators := ind }
      let s3 := { s2 with currentSlide := index }
      match setActive s3.slides s3.currentSlide true with
      | none => .typeError s3
      | some sl2 =>
        let s4 := { s3 with slides := sl2 }
        match setActive s4.indicators s4.currentSlide true with
        | none => .typeError s4
        | some ind2 =>
          let s5 := { s4 with indicators := ind2 }
          if s5.isPlaying then .ok (restartAutoplay s5) else .ok s5

/-- Source `nextSlide` (lines 359-362). -/
def nextSlide (s : HeroSliderManager) : Outcome HeroSliderManager :=
  let nextIndex := (s.currentSlide.add (.int 1)).rem (.int s.slides.length)
  goToSlide s nextIndex

/-- Source `previousSlide` (lines 364-367). -/
def previousSlide (s : HeroSliderManager) : Outcome HeroSliderManager :=
  let prevIndex :=
    ((s.currentSlide.sub (.int 1)).add (.int s.slides.length)).rem (.int s.slides.length)
  goToSlide s prevIndex

/-- Source `toggleAutoplay` (lines 389-403). -/
def toggleAutoplay (s : HeroSliderManager) : HeroSliderManager :=
  let s1 := { s with isPlaying := !s.isPlaying }
  if s1.isPlaying then
    let s2 := startAutoplay s1
    { s2 with playPauseIcon := s2.playPauseIcon.map (fun _ => "fas fa-pause") }
  else
    let s2 := stopAutoplay s1
    { s2 with playPauseIcon := s2.playPauseIcon.map (fun _ => "fas fa-play") }

/-- The `mouseenter` listener of `setupHoverPause` (lines 408-412). -/
def onMouseEnter (s : HeroSliderManager) : HeroSliderManager :=
  if s.isPlaying then stopAutoplay s else s

/-- The `mouseleave` listener of `setupHoverPause` (lines 414-418). -/
def onMouseLeave (s : HeroSliderManager) : HeroSliderManager :=
  if s.isPlaying then startAutoplay s else s

/-- The `visibilitychange` listener of `setupVisibilityChange` (lines 424-430);
`hidden` is `document.hidden`. -/
def onVisibilityChange (s : HeroSliderManager) (hidden : Bool) : HeroSliderManager :=
  if hidden then stopAutoplay s
  else if s.isPlaying then startAutoplay s
  else s

/-- Source `init` (lines 289-297). `setupBackgroundImages` only writes styles, and
the other `setup...` methods only register the listeners modelled as events
below; `startAutoplay` is the one call that changes the state. -/
def init (s : HeroSliderManager) : HeroSliderManager :=
  startAutoplay s

/-- Source `constructor` (lines 272-287) over a page with the given slides,
indicators and play/pause icon. No statement of the constructor or of `init` can
throw, so the call always ends normally. -/
def new (slides indicators : List Bool) (icon : Option String) (env : Clock) :
    Outcome HeroSliderManager :=
  .ok (init
    { slides := slides
      indicators := indicators
      playPauseIcon := icon
      currentSlide := .int 0
      isPlaying := true
      autoplayInterval := none
      autoplayDelay := 5000
      env := env })

/-- The next interval fires: the clock moves to its due time, the callback
`() => this.nextSlide()` runs (an exception it throws is reported and goes no
further), and the interval, if the callback did not clear it, is scheduled
again. Nothing happens when no interval is armed. -/
def timerFire (s : HeroSliderManager) : HeroSliderManager :=
  match s.env.nextTimer with
  | none => s
  | some t =>
    let s1 := { s with env := s.env.moveTo t.due }
    let s2 := (nextSlide s1).state
    { s2 with env := s2.env.reschedule t.id }

/-- Simulated time passes up to the instant `target` with no other event: every
interval due by then fires in turn. `fuel` bounds the number of fires; `none`
means the bound was reached. -/
def advanceClock (target : Nat) : Nat → HeroSliderManager → Option HeroSliderManager
  | 0, s =>
    match s.env.nextTimer with
    | none => some { s with env := s.env.moveTo target }
    | some t => if t.due ≤ target then none else some { s with env := s.env.moveTo target }
  | fuel + 1, s =>
    match s.env.nextTimer with
    | none => some { s with env := s.env.moveTo target }
    | some t =>
      if t.due ≤ target then advanceClock target fuel (timerFire s)
      else some { s with env := s.env.moveTo target }

/-- Simulated time passes for `ms` milliseconds. -/
def elapse (fuel ms : Nat) (s : HeroSliderManager) : Option HeroSliderManager :=
  advanceClock (s.env.now + ms) fuel s

end HeroSliderManager

/-- The events a hero slider reacts to, named after the method the listener
calls. -/
inductive HeroEvent where
  | nextSlide
  | previousSlide
  | goToSlide (i : Nat)
  | toggleAutoplay
  | mouseenter
  | mouseleave
  | visibilityHidden
  | visibilityVisible
  | timerFire
  deriving DecidableEq, Repr

namespace HeroSliderManager

/-- One event handled to completion; an exception thrown by a listener is
uncaught and leaves the state reached so far. -/
def step (s : HeroSliderManager) : HeroEvent → HeroSliderManager
  | .nextSlide => (nextSlide s).state
  | .previousSlide => (previousSlide s).state
  | .goToSlide i => (goToSlide s (.int i)).state
  | .toggleAutoplay => toggleAutoplay s
  | .mouseenter => onMouseEnter s
  | .mouseleave => onMouseLeave s
  | .visibilityHidden => onVisibilityChange s true
  | .visibilityVisible => onVisibilityChange s false
  | .timerFire => timerFire s

/-- A sequence of events handled in order. -/
def run (s : HeroSliderManager) (es : List HeroEvent) : HeroSliderManager :=
  es.foldl step s

end HeroSliderManager

/-! ## TestimonialsManager (script.js, lines 795-978) -/

/-- One entry of `this.testimonials`. -/
structure Testimonial where
  id : Nat
  text : String
  author : String
  position : String
  avatar : String
  rating : Nat
  deriving DecidableEq, Repr

/-- The fields of a `TestimonialsManager` with the part of the page it acts on:
`slider` is `none` when the element `#testimonials-slider` does not exist, and
otherwise holds the `active` flag of every `.testimonial-item` inside it. -/
structure TestimonialsManager where
  slider : Option (List Bool)
  testimonials : List Testimonial
  currentTestimonial : JsNum
  isAutoPlaying : Bool
  autoplayInterval : Option Nat
  autoplayDelay : Nat
  env : Clock
  deriving DecidableEq, Repr

namespace TestimonialsManager

/-- The five entries written in the constructor (lines 806-847). -/
def data : List Testimonial :=
  [ { id := 1
      text := "SecureGuard Pro provided exceptional personal security for our executive team. Their professionalism and attention to detail gave us complete peace of mind during high-risk situations."
      author := "Sarah Johnson"
      position := "CEO, TechCorp Industries"
      avatar := "public/professional-business-woman-ceo.jpg"
      rating := 5 },
    { id := 2
      text := "The convoy protection service was flawless. Every detail was meticulously planned and executed. I felt completely secure throughout the entire journey."
      author := "Michael Chen"
      position := "Government Official"
      avatar := "public/professional-businessman-client.jpg"
      rating := 5 },
    { id := 3
      text := "Their home security system is state-of-the-art. The 24/7 monitoring and rapid response capabilities are exactly what we needed for our family\x27s safety."
      author := "Emily Rodriguez"
      position := "Private Client"
      avatar := "public/professional-business-woman-ceo.jpg"
      rating := 5 },
    { id := 4
      text := "Outstanding escort services for our corporate events. The security team was discrete, professional, and highly effective. Highly recommended!"
      author := "David Thompson"
      position := "Event Coordinator"
      avatar := "public/professional-businessman-client.jpg"
      rating := 5 },
    { id := 5
      text := "SecureGuard Pro\x27s security equipment and technology solutions transformed our facility\x27s protection capabilities. Their expertise is unmatched."
      author := "Lisa Wang"
      position := "Facility Manager"
      avatar := "public/professional-business-woman-ceo.jpg"
      rating := 5 } ]

/-- Source `renderTestimonials` (lines 859-881): when the slider exists its
content is replaced by one item per testimonial, the item of index 0 carrying
the class `active`. -/
def renderTestimonials (s : TestimonialsManager) : TestimonialsManager :=
  match s.slider with
  | none => s
  | some _ =>
    { s with slider := some ((List.range s.testimonials.length).map (fun index => index == 0)) }

/-- Source `stopAutoplay` (lines 943-948). A stored handle is a positive integer,
hence truthy; `null` is falsy. -/
def stopAutoplay (s : TestimonialsManager) : TestimonialsManager :=
  match s.autoplayInterval with
  | some id => { s with env := s.env.clearInterval id, autoplayInterval := none }
  | none => s

/-- Source `startAutoplay` (lines 935-941); the callback of the interval is
`nextTestimonial`, run by `timerFire` below. -/
def startAutoplay (s : TestimonialsManager) : TestimonialsManager :=
  if s.isAutoPlaying then
    let r := s.env.setInterval s.autoplayDelay
    { s with env := r.2, autoplayInterval := some r.1 }
  else s

/-- Source `restartAutoplay` (lines 950-953). -/
def restartAutoplay (s : TestimonialsManager) : TestimonialsManager :=
  startAutoplay (stopAutoplay s)

/-- Source `goToTestimonial` (lines 912-923), statement by statement;
`this.slider.querySelectorAll` throws when the slider is `null`. -/
def goToTestimonial (s : TestimonialsManager) (index : JsNum) : Outcome TestimonialsManager :=
  match s.slider with
  | none => .typeError s
  | some testimonials =>
    match setActive testimonials s.currentTestimonial false with
    | none => .typeError s
    | some t1 =>
      let s1 := { s with slider := some t1 }
      let s2 := { s1 with currentTestimonial := index }
      match setActive t1 s2.currentTestimonial true with
      | none => .typeError s2
      | some t2 => .ok { s2 with slider := some t2 }

/-- Source `nextTestimonial` (lines 925-928). -/
def nextTestimonial (s : TestimonialsManager) : Outcome TestimonialsManager :=
  let nextIndex := (s.currentTestimonial.add (.int 1)).rem (.int s.testimonials.length)
  goToTestimonial s nextIndex

/-- Source `previousTestimonial` (lines 930-933). -/
def previousTestimonial (s : TestimonialsManager) : Outcome TestimonialsManager :=
  let prevIndex :=
    ((s.currentTestimonial.sub (.int 1)).add (.int s.testimonials.length)).rem
      (.int s.testimonials.length)
  goToTestimonial s prevIndex

/-- The `click` listener of the previous button and the `ArrowLeft` branch of the
`keydown` listener (lines 885-888 and 901-903): `restartAutoplay` runs only when
`previousTestimonial` did not throw. -/
def onPrevious (s : TestimonialsManager) : Outcome TestimonialsManager :=
  match previousTestimonial s with
  | .ok s1 => .ok (restartAutoplay s1)
  | .typeError s1 => .typeError s1

/-- The `click` listener of the next button and the `ArrowRight` branch of the
`keydown` listener (lines 892-895 and 904-906). -/
def onNext (s : TestimonialsManager) : Outcome TestimonialsManager :=
  match nextTestimonial s with
  | .ok s1 => .ok (restartAutoplay s1)
  | .typeError s1 => .typeError s1

/-- The `mouseenter` listener of `setupHoverPause` (lines 957-959). -/
def onMouseEnter (s : TestimonialsManager) : TestimonialsManager :=
  stopAutoplay s

/-- The `mouseleave` listener of `setupHoverPause` (lines 961-965). -/
def onMouseLeave (s : TestimonialsManager) : TestimonialsManager :=
  if s.isAutoPlaying then startAutoplay s else s

/-- Source `init` (lines 852-857); `setupControls` and `setupHoverPause` only
register the listeners modelled as events below. -/
def init (s : TestimonialsManager) : TestimonialsManager :=
  startAutoplay (renderTestimonials s)

/-- Source `constructor` (lines 796-850) with the list of testimonials as a
parameter (the source writes `data`); `slider` is the content of
`#testimonials-slider` before rendering, `none` when the element is missing. No
statement of the constructor or of `init` can throw. -/
def new (slider : Option (List Bool)) (testimonials : List Testimonial) (env : Clock) :
    Outcome TestimonialsManager :=
  .ok (init
    { slider := slider
      testimonials := testimonials
      currentTestimonial := .int 0
      isAutoPlaying := true
      autoplayInterval := none
      autoplayDelay := 6000
      env := env })

/-- The next interval fires: the clock moves to its due time, the callback
`() => this.nextTestimonial()` runs (an exception it throws is reported and goes
no further), and the interval, if still armed, is scheduled again. -/
def timerFire (s : TestimonialsManager) : TestimonialsManager :=
  match s.env.nextTimer with
  | none => s
  | some t =>
    let s1 := { s with env := s.env.moveTo t.due }
    let s2 := (nextTestimonial s1).state
    { s2 with env := s2.env.reschedule t.id }

end TestimonialsManager

/-- The events a testimonials slider reacts to, followed by the direct calls of
its three navigation methods. -/
inductive TestimonialEvent where
  | prevClick
  | nextClick
  | arrowLeft
  | arrowRight
  | mouseenter
  | mouseleave
  | timerFire
  | nextTestimonial
  | previousTestimonial
  | goToTestimonial (i : Nat)
  deriving DecidableEq, Repr

namespace TestimonialsManager

/-- One event handled to completion; the arrow keys are those pressed while the
slider is in the viewport (line 900), the others have no effect. -/
def step (s : TestimonialsManager) : TestimonialEvent → TestimonialsManager
  | .prevClick => (onPrevious s).state
  | .nextClick => (onNext s).state
  | .arrowLeft => (onPrevious s).state
  | .arrowRight => (onNext s).state
  | .mouseenter => onMouseEnter s
  | .mouseleave => onMouseLeave s
  | .timerFire => timerFire s
  | .nextTestimonial => (nextTestimonial s).state
  | .previousTestimonial => (previousTestimonial s).state
  | .goToTestimonial i => (goToTestimonial s (.int i)).state

/-- A sequence of events handled in order. -/
def run (s : TestimonialsManager) (es : List TestimonialEvent) : TestimonialsManager :=
  es.foldl step s

end TestimonialsManager

/-! ## Strings -/

/-- A JavaScript string, as the list of its UTF-16 code units; `length`, `trim`
and the regular expressions of the source (none has the `u` flag) all work on
code units. -/
abbrev JsString := List Nat

namespace JsString

/-- The code units of one character: the character itself, or a surrogate pair
above U+FFFF. -/
def ofChar (c : Char) : List Nat :=
  if c.toNat < 65536 then [c.toNat]
  else [55296 + (c.toNat - 65536) / 1024, 56320 + (c.toNat - 65536) % 1024]

/-- The JavaScript string with the given text. -/
def ofString (s : String) : JsString :=
  (s.toList.map ofChar).flatten

/-- White space and line terminators: the code units that `\s` matches and that
`trim` removes (tab, line feed, vertical tab, form feed, carriage return, space,
no-break space, U+1680, U+2000 to U+200A, U+2028, U+2029, U+202F, U+205F,
U+3000, U+FEFF). -/
def isWhiteSpace (c : Nat) : Bool :=
  c == 9 || c == 10 || c == 11 || c == 12 || c == 13 || c == 32 || c == 160 ||
  c == 5760 || (8192 ≤ c && c ≤ 8202) || c == 8232 || c == 8233 || c == 8239 ||
  c == 8287 || c == 12288 || c == 65279

/-- The class `[a-zA-Z]`. -/
def isLetter (c : Nat) : Bool :=
  (65 ≤ c && c ≤ 90) || (97 ≤ c && c ≤ 122)

/-- The class `\d`, that is `[0-9]`. -/
def isDigit (c : Nat) : Bool :=
  48 ≤ c && c ≤ 57

/-- The method `trim`: white space is removed at both ends. -/
def trim (s : JsString) : JsString :=
  ((s.dropWhile isWhiteSpace).reverse.dropWhile isWhiteSpace).reverse

end JsString

/-! ## ContactFormManager (script.js, lines 981-1251) -/

/-- The pattern `/^[a-zA-Z\s]+$/` of the rule `name`: one character or more, all
of them letters or white space. -/
def namePattern (v : JsString) : Bool :=
  !v.isEmpty && v.all (fun c => JsString.isLetter c || JsString.isWhiteSpace c)

/-- The class `[^\s@]` of the email pattern; 64 is `@`. -/
def isEmailChar (c : Nat) : Bool :=
  !JsString.isWhiteSpace c && c != 64

/-- The pattern `/^[^\s@]+@[^\s@]+\.[^\s@]+$/` of the rule `email`: a non-empty
run of `[^\s@]`, then `@`, then a run of `[^\s@]` that has a dot (46) with at
least one character before it and one after it. -/
def emailPattern (v : JsString) : Bool :=
  match v.dropWhile isEmailChar with
  | 64 :: domain =>
    !(v.takeWhile isEmailChar).isEmpty && domain.all isEmailChar &&
      ((domain.drop 1).dropLast).contains 46
  | _ => false

/-- The pattern `/^[+]?[1-9][\d]{0,15}$/` of the rule `phone`: an optional `+`
(43), a digit from 1 to 9, then at most 15 digits. -/
def phonePattern (v : JsString) : Bool :=
  let digits := match v with
    | 43 :: rest => rest
    | _ => v
  match digits with
  | d :: rest => (49 ≤ d && d ≤ 57) && rest.all JsString.isDigit && rest.length ≤ 15
  | [] => false

/-- One entry of `this.validationRules`; a property that the entry does not have
is `none` (or `false` for `required`). -/
structure Rules where
  required : Bool
  minLength : Option Nat
  maxLength : Option Nat
  pattern : Option (JsString → Bool)
  message : Option String

/-- The property names that every object inherits from `Object.prototype`:
`this.validationRules[fieldName]` is truthy for them, with none of the
properties of a rule. -/
def inheritedNames : List String :=
  ["constructor", "__defineGetter__", "__defineSetter__", "hasOwnProperty",
   "__lookupGetter__", "__lookupSetter__", "isPrototypeOf", "propertyIsEnumerable",
   "toString", "valueOf", "__proto__", "toLocaleString"]

/-- The lookup `this.validationRules[fieldName]` (lines 989-1012), `none` when it
gives `undefined`. -/
def validationRules (fieldName : String) : Option Rules :=
  if fieldName = "name" then
    some { required := true, minLength := some 2, maxLength := none,
           pattern := some namePattern,
           message := some "Please enter a valid name (letters and spaces only)" }
  else if fieldName = "email" then
    some { required := true, minLength := none, maxLength := none,
           pattern := some emailPattern,
           message := some "Please enter a valid email address" }
  else if fieldName = "phone" then
    some { required := false, minLength := none, maxLength := none,
           pattern := some phonePattern,
           message := some "Please enter a valid phone number" }
  else if fieldName = "message" then
    some { required := true, minLength := some 10, maxLength := some 1000,
           pattern := none,
           message := some "Message must be between 10 and 1000 characters" }
  else if inheritedNames.contains fieldName then
    some { required := false, minLength := none, maxLength := none,
           pattern := none, message := none }
  else none

/-- The kind of a form control. -/
inductive Tag where
  | input
  | textarea
  | select
  deriving DecidableEq, Repr

/-- A control of the form: its tag, its `name`, its `value`, whether it has the
attribute `required`, and its `style.borderColor`. -/
structure FormField where
  tag : Tag
  name : String
  value : JsString
  required : Bool
  borderColor : String
  deriving DecidableEq, Repr

/-- An element of the page looked up by its id, with its `textContent` and its
`style.display`. -/
structure ErrorElement where
  id : String
  textContent : String
  display : String
  deriving DecidableEq, Repr

/-- The element that `document.getElementById(id)` gives, if any. -/
def getElementById (page : List ErrorElement) (id : String) : Option ErrorElement :=
  page.find? (fun e => e.id == id)

/-- The statements `errorElement.textContent = text` and
`errorElement.style.display = display` under `if (errorElement)`, for the element
that `document.getElementById(id)` gives. -/
def setErrorElement (page : List ErrorElement) (id text display : String) :
    List ErrorElement :=
  match page with
  | [] => []
  | e :: rest =>
    if e.id == id then { e with textContent := text, display := display } :: rest
    else e :: setErrorElement rest id text display

/-- Source `showFieldError` (lines 1114-1121). -/
def showFieldError (field : FormField) (message : String) (page : List ErrorElement) :
    FormField × List ErrorElement :=
  ({ field with borderColor := "var(--destructive)" },
   setErrorElement page (field.name ++ "-error") message "block")

/-- Source `clearFieldError` (lines 1123-1130). -/
def clearFieldError (field : FormField) (page : List ErrorElement) :
    FormField × List ErrorElement :=
  ({ field with borderColor := "var(--border)" },
   setErrorElement page (field.name ++ "-error") "" "none")

/-- Source `capitalizeFirst` (lines 1248-1250). It is only called with the name
of a field that has a rule of its own (`name`, `email`, `message`), where the
upper case of the first character is the ASCII one. -/
def capitalizeFirst (str : String) : String :=
  str.capitalize

/-- What a call of `validateField` leaves: the value returned, the field and the
elements of the page. -/
structure FieldResult where
  valid : Bool
  field : FormField
  page : List ErrorElement
  deriving DecidableEq, Repr

/-- The test `rules.minLength && fieldValue.length < rules.minLength`. -/
def tooShort (rules : Rules) (fieldValue : JsString) : Bool :=
  match rules.minLength with
  | some m => m != 0 && fieldValue.length < m
  | none => false

/-- The test `rules.maxLength && fieldValue.length > rules.maxLength`. -/
def tooLong (rules : Rules) (fieldValue : JsString) : Bool :=
  match rules.maxLength with
  | some m => m != 0 && fieldValue.length > m
  | none => false

/-- The test `rules.pattern && !rules.pattern.test(fieldValue)`. -/
def patternFails (rules : Rules) (fieldValue : JsString) : Bool :=
  match rules.pattern with
  | some p => !p fieldValue
  | none => false

/-- Source `validateField` (lines 1073-1112), statement by statement. -/
def validateField (field : FormField) (page : List ErrorElement) : FieldResult :=
  let fieldName := field.name
  let fieldValue := JsString.trim field.value
  match validationRules fieldName with
  | none => { valid := true, field := field, page := page }
  | some rules =>
    let cleared := clearFieldError field page
    if rules.required && fieldValue.isEmpty then
      let shown := showFieldError cleared.1 (capitalizeFirst fieldName ++ " is required")
        cleared.2
      { valid := false, field := shown.1, page := shown.2 }
    else if fieldValue.isEmpty && !rules.required then
      { valid := true, field := cleared.1, page := cleared.2 }
    else if tooShort rules fieldValue then
      let shown := showFieldError cleared.1
        (capitalizeFirst fieldName ++ " must be at least " ++
          toString (rules.minLength.getD 0) ++ " characters") cleared.2
      { valid := false, field := shown.1, page := shown.2 }
    else if tooLong rules fieldValue then
      let shown := showFieldError cleared.1
        (capitalizeFirst fieldName ++ " must be less than " ++
          toString (rules.maxLength.getD 0) ++ " characters") cleared.2
      { valid := false, field := shown.1, page := shown.2 }
    else if patternFails rules fieldValue then
      let shown := showFieldError cleared.1 (rules.message.getD "undefined") cleared.2
      { valid := false, field := shown.1, page := shown.2 }
    else
      { valid := true, field := cleared.1, page := cleared.2 }

/-- What a call of `validateForm` leaves: the value returned, the controls of the
form and the elements of the page. -/
structure FormResult where
  valid : Bool
  fields : List FormField
  page : List ErrorElement
  deriving DecidableEq, Repr

/-- The first loop of `validateForm` (lines 1133-1140) over the controls of the
form in document order: the callback runs for those that match
`input[required], textarea[required]`. -/
def forEachRequired : List FormField → Bool → List ErrorElement → FormResult
  | [], isValid, page => { valid := isValid, fields := [], page := page }
  | input :: rest, isValid, page =>
    if input.tag != Tag.select && input.required then
      let r := validateField input page
      let isValid := if !r.valid then false else isValid
      let out := forEachRequired rest isValid r.page
      { valid := out.valid, fields := r.field :: out.fields, page := out.page }
    else
      let out := forEachRequired rest isValid page
      { valid := out.valid, fields := input :: out.fields, page := out.page }

/-- The second loop of `validateForm` (lines 1143-1150): the callback runs for the
controls that match `input:not([required]), textarea:not([required])`, and
validates those whose trimmed value is not empty. -/
def forEachOptional : List FormField → Bool → List ErrorElement → FormResult
  | [], isValid, page => { valid := isValid, fields := [], page := page }
  | input :: rest, isValid, page =>
    if input.tag != Tag.select && !input.required then
      if !(JsString.trim input.value).isEmpty then
        let r := validateField input page
        let isValid := if !r.valid then false else isValid
        let out := forEachOptional rest isValid r.page
        { valid := out.valid, fields := r.field :: out.fields, page := out.page }
      else
        let out := forEachOptional rest isValid page
        { valid := out.valid, fields := input :: out.fields, page := out.page }
    else
      let out := forEachOptional rest isValid page
      { valid := out.valid, fields := input :: out.fields, page := out.page }

/-- Source `validateForm` (lines 1132-1153) over the controls of the form. -/
def validateForm (fields : List FormField) (page : List ErrorElement) : FormResult :=
  let first := forEachRequired fields true page
  forEachOptional first.fields first.valid first.page

/-- The replacement `value.replace(/[^a-zA-Z\s]/g, "")` of the `input` listener of
the name field (lines 1042-1044). -/
def nameInputFilter (value : JsString) : JsString :=
  value.filter (fun c => JsString.isLetter c || JsString.isWhiteSpace c)

/-- The replacement `value.replace(/[^\d+\-$$$$\s]/g, "")` of the `input` listener
of the phone field (lines 1049-1051): digits, `+` (43), `-` (45), `$` (36) and
white space are kept. -/
def phoneInputFilter (value : JsString) : JsString :=
  value.filter (fun c =>
    JsString.isDigit c || c == 43 || c == 45 || c == 36 || JsString.isWhiteSpace c)

/-- The two `input` listeners of the name field, in the order `init` registers
them: `clearFieldError` (line 1030), then the replacement (lines 1042-1044). -/
def onNameInput (field : FormField) (page : List ErrorElement) : FormField × List ErrorElement :=
  let cleared := clearFieldError field page
  ({ cleared.1 with value := nameInputFilter cleared.1.value }, cleared.2)

/-! ## GalleryManager (script.js, lines 620-792) -/

/-- One entry of `this.galleryItems`. -/
structure GalleryItem where
  id : Nat
  category : String
  image : String
  caption : String
  deriving DecidableEq, Repr

/-- A rendered `.gallery-item`: its `data-category`, the `src` and the `alt` of
its image, and the index that its `animation-delay` is computed from
(`index * 0.1` seconds). -/
structure GalleryElement where
  category : String
  src : String
  alt : String
  delayIndex : Nat
  deriving DecidableEq, Repr

/-- The content of `#gallery-grid`: the rendered elements, and the array
`filteredItems` that their click listeners read (empty for markup that
`renderGallery` did not write). -/
structure GalleryGrid where
  elements : List GalleryElement
  filteredItems : List GalleryItem
  deriving DecidableEq, Repr

/-- A `.filter-btn`: its attribute `data-filter` (`none` when it is missing, where
`getAttribute` gives `null`) and its class `active`. -/
structure FilterButton where
  dataFilter : Option String
  active : Bool
  deriving DecidableEq, Repr

/-- The fields of a `GalleryManager` with the part of the page it acts on: the
grid, the filter buttons, `style.display` of the modal, `src` of the modal
image, `textContent` of the modal caption (each `none` when the element does not
exist) and `style.overflow` of the body. -/
structure GalleryManager where
  galleryGrid : Option GalleryGrid
  filterButtons : List FilterButton
  modal : Option String
  modalImage : Option String
  modalCaption : Option String
  bodyOverflow : String
  currentFilter : Option String
  galleryItems : List GalleryItem
  deriving DecidableEq, Repr

namespace GalleryManager

/-- The nine entries written in the constructor (lines 630-685). -/
def data : List GalleryItem :=
  [ { id := 1, category := "personal",
      image := "public/professional-bodyguard-in-suit-protecting-vip-clie.jpg",
      caption := "Professional bodyguard providing VIP protection services" },
    { id := 2, category := "convoy",
      image := "public/armored-security-convoy-vehicles-on-road.jpg",
      caption := "Armored convoy protection for high-value transport" },
    { id := 3, category := "home",
      image := "public/modern-home-security-system-with-cameras-and-senso.jpg",
      caption := "Advanced home security system with smart monitoring" },
    { id := 4, category := "equipment",
      image := "public/advanced-security-surveillance-equipment-and-monit.jpg",
      caption := "State-of-the-art surveillance and monitoring equipment" },
    { id := 5, category := "personal",
      image := "public/professional-security-guard-in-suit-protecting-vip.jpg",
      caption := "Elite personal security detail in action" },
    { id := 6, category := "convoy",
      image := "public/security-convoy-protecting-valuable-transport.jpg",
      caption := "Security convoy ensuring safe valuable transport" },
    { id := 7, category := "home",
      image := "public/corporate-office-building-with-security-personnel-.jpg",
      caption := "Corporate security personnel monitoring premises" },
    { id := 8, category := "equipment",
      image := "public/professional-security-team-meeting-in-modern-offic.jpg",
      caption := "Security team coordination and planning session" },
    { id := 9, category := "personal",
      image := "public/professional-bodyguard-in-suit-protecting-vip-clie.jpg",
      caption := "Discrete personal protection for high-profile clients" } ]

/-- The constant `filteredItems` of `renderGallery` (lines 699-702). -/
def filteredItems (g : GalleryManager) : List GalleryItem :=
  if g.currentFilter = some "all" then g.galleryItems
  else g.galleryItems.filter (fun item => some item.category == g.currentFilter)

/-- The element that the template of `renderGallery` (lines 706-713) writes for
one item; the texts of the items are taken to hold no markup. -/
def renderItem (item : GalleryItem) (index : Nat) : GalleryElement :=
  { category := item.category, src := item.image, alt := item.caption, delayIndex := index }

/-- The call `items.map((item, index) => ...)` with the template of
`renderGallery`, the first index being `index`. -/
def renderItems (index : Nat) : List GalleryItem → List GalleryElement
  | [] => []
  | item :: rest => renderItem item index :: renderItems (index + 1) rest

/-- Source `renderGallery` (lines 696-734): the grid, when it exists, gets one
element per filtered item, in order, and each element a click listener that reads
`filteredItems`. The timer that adds the class `animated` to the new elements
only concerns their style and is left out. -/
def renderGallery (g : GalleryManager) : GalleryManager :=
  match g.galleryGrid with
  | none => g
  | some _ =>
    let filteredItems := g.filteredItems
    let grid := GalleryGrid.mk (renderItems 0 filteredItems) filteredItems
    { g with galleryGrid := some grid }

/-- Source `openModal` (lines 777-784); `this.modalImage.src` and
`this.modalCaption.textContent` throw when the element is `null`. -/
def openModal (g : GalleryManager) (imageSrc caption : String) : Outcome GalleryManager :=
  match g.modal with
  | none => .ok g
  | some _ =>
    match g.modalImage with
    | none => .typeError g
    | some _ =>
      let g1 := { g with modalImage := some imageSrc }
      match g1.modalCaption with
      | none => .typeError g1
      | some _ =>
        .ok { g1 with modalCaption := some caption, modal := some "flex",
                      bodyOverflow := "hidden" }

/-- Source `closeModal` (lines 786-791). -/
def closeModal (g : GalleryManager) : GalleryManager :=
  match g.modal with
  | none => g
  | some _ => { g with modal := some "none", bodyOverflow := "" }

/-- The click listener of the rendered element of the given index (lines
719-722); nothing happens when the grid has no such element, and reading
`.image` of `undefined` throws. -/
def onItemClick (g : GalleryManager) (index : Nat) : Outcome GalleryManager :=
  match g.galleryGrid with
  | none => .ok g
  | some grid =>
    if index < grid.elements.length then
      match grid.filteredItems.get? index with
      | none => .typeError g
      | some galleryItem => openModal g galleryItem.image galleryItem.caption
    else .ok g

/-- The click listener of the filter button of the given index (lines 738-750);
nothing happens when there is no such button. -/
def onFilterClick (g : GalleryManager) (index : Nat) : GalleryManager :=
  match g.filterButtons.get? index with
  | none => g
  | some button =>
    let cleared := g.filterButtons.map (fun btn => { btn with active := false })
    let marked := cleared.set index { button with active := true }
    renderGallery { g with filterButtons := marked, currentFilter := button.dataFilter }

/-- Source `init` (lines 690-694); `setupFilters` and `setupModal` only register
listeners. -/
def init (g : GalleryManager) : GalleryManager :=
  renderGallery g

/-- Source `constructor` (lines 621-688) over a page with the given grid, filter
buttons and modal elements, for the given list of items (the source writes
`data`). -/
def new (grid : Option GalleryGrid) (buttons : List FilterButton)
    (modal modalImage modalCaption : Option String) (items : List GalleryItem) :
    GalleryManager :=
  init
    { galleryGrid := grid
      filterButtons := buttons
      modal := modal
      modalImage := modalImage
      modalCaption := modalCaption
      bodyOverflow := ""
      currentFilter := some "all"
      galleryItems := items }

end GalleryManager

/-! ## ThemeManager (script.js, lines 2-34) -/

/-- The content of `localStorage`: keys with their values. -/
abbrev Storage := List (String × String)

/-- The call `localStorage.getItem(key)`, `none` standing for `null`. -/
def Storage.getItem (storage : Storage) (key : String) : Option String :=
  storage.lookup key

/-- The call `localStorage.setItem(key, value)`: the value of the key is replaced,
or the key is added. -/
def Storage.setItem : Storage → String → String → Storage
  | [], key, value => [(key, value)]
  | (k, v) :: rest, key, value =>
    if key == k then (key, value) :: rest else (k, v) :: Storage.setItem rest key value

/-- The fields of a `ThemeManager` with the part of the browser it acts on:
`localStorage`, the attribute `data-theme` of the document element (`none` while
it is not set) and the class name of `#theme-icon` (`none` when the element does
not exist). -/
structure ThemeManager where
  theme : String
  localStorage : Storage
  dataTheme : Option String
  themeIcon : Option String
  deriving DecidableEq, Repr

namespace ThemeManager

/-- Source `applyTheme` (lines 13-19). -/
def applyTheme (s : ThemeManager) : ThemeManager :=
  { s with
    dataTheme := some s.theme
    themeIcon := s.themeIcon.map (fun _ => if s.theme = "dark" then "fas fa-sun" else "fas fa-moon") }

/-- Source `toggle` (lines 21-25). -/
def toggle (s : ThemeManager) : ThemeManager :=
  let s1 := { s with theme := if s.theme = "light" then "dark" else "light" }
  let s2 := { s1 with localStorage := s1.localStorage.setItem "theme" s1.theme }
  applyTheme s2

/-- Source `init` (lines 8-11); `setupToggle` only registers the click listener
that calls `toggle`. -/
def init (s : ThemeManager) : ThemeManager :=
  applyTheme s

/-- The expression `localStorage.getItem("theme") || "light"` (line 4): `null` and
the empty string are falsy. -/
def initialTheme (storage : Storage) : String :=
  match storage.getItem "theme" with
  | none => "light"
  | some value => if value = "" then "light" else value

/-- Source `constructor` (lines 3-6) over the given storage and page. -/
def new (storage : Storage) (dataTheme themeIcon : Option String) : ThemeManager :=
  init
    { theme := initialTheme storage
      localStorage := storage
      dataTheme := dataTheme
      themeIcon := themeIcon }

end ThemeManager

/-! ## Vocabulary of the statements -/

/-- The index normalisation of the specification, `((k % N) + N) % N`, in
JavaScript arithmetic. -/
def wrapIndex (k N : Int) : JsNum :=
  (((JsNum.int k).rem (.int N)).add (.int N)).rem (.int N)

/-- The number `i` is an integer of `[0, n)`. -/
def JsNum.InRange (i : JsNum) (n : Nat) : Prop :=
  ∃ c : Nat, c < n ∧ i = .int (c : Int)

/-- Five slides and five indicators, the first of each active. -/
def fiveFlags : List Bool := [true, false, false, false, false]

/-- The hero slider right after construction over five slides and five
indicators. -/
def heroFive : HeroSliderManager :=
  (HeroSliderManager.new fiveFlags fiveFlags (some "fas fa-pause") Clock.fresh).state

/-- The testimonials slider right after construction, as the source builds it. -/
def testimonialsFive : TestimonialsManager :=
  (TestimonialsManager.new (some []) TestimonialsManager.data Clock.fresh).state

/-- The hero slider right after construction over a single slide. -/
def heroOne : HeroSliderManager :=
  (HeroSliderManager.new [true] [true] (some "fas fa-pause") Clock.fresh).state

/-- The testimonials slider right after construction over a single testimonial. -/
def testimonialsOne : TestimonialsManager :=
  (TestimonialsManager.new (some []) (TestimonialsManager.data.take 1) Clock.fresh).state

/-- The hero slider after the pointer entered the slider, the user navigated to
the next slide, and the pointer left the slider. -/
def heroLeaked : HeroSliderManager :=
  heroFive.run [.mouseenter, .nextSlide, .mouseleave]

/-- Every armed interval is the one whose handle `autoplayInterval` holds. -/
def HeroSliderManager.Tracked (s : HeroSliderManager) : Prop :=
  ∀ t ∈ s.env.timers, s.autoplayInterval = some t.id

instance (s : HeroSliderManager) : Decidable s.Tracked :=
  inferInstanceAs (Decidable (∀ t ∈ s.env.timers, s.autoplayInterval = some t.id))

/-- Every armed interval is the one whose handle `autoplayInterval` holds. -/
def TestimonialsManager.Tracked (s : TestimonialsManager) : Prop :=
  ∀ t ∈ s.env.timers, s.autoplayInterval = some t.id

instance (s : TestimonialsManager) : Decidable s.Tracked :=
  inferInstanceAs (Decidable (∀ t ∈ s.env.timers, s.autoplayInterval = some t.id))

/-- The state `goToSlide` builds before it looks at `isPlaying`, when the current
index is `c` and the target is `k`. -/
def HeroSliderManager.moved (s : HeroSliderManager) (c k : Nat) : HeroSliderManager :=
  { s with slides := (s.slides.set c false).set k true
           indicators := (s.indicators.set c false).set k true
           currentSlide := .int (k : Int) }

/-- The state `goToTestimonial` builds when the slider holds `items`, the current
index is `c` and the target is `k`. -/
def TestimonialsManager.moved (s : TestimonialsManager) (items : List Bool) (c k : Nat) :
    TestimonialsManager :=
  { s with slider := some ((items.set c false).set k true)
           currentTestimonial := .int (k : Int) }

/-- The slides are as many as before and the index is one of `[0, N)`. -/
def HeroSliderManager.Keeps (s s1 : HeroSliderManager) : Prop :=
  s1.slides.length = s.slides.length ∧ s1.currentSlide.InRange s.slides.length

/-- The testimonials are the same as before and the index is one of `[0, N)`. -/
def TestimonialsManager.Keeps (s s1 : TestimonialsManager) : Prop :=
  s1.testimonials = s.testimonials ∧ s1.currentTestimonial.InRange s.testimonials.length

/-- Exactly one element of the list carries the class `active`, and it is the
element of index `c`. -/
def ExactlyActive (xs : List Bool) (c : Nat) : Prop :=
  ∀ j, xs[j]? = some true ↔ j = c

/-- The slider element exists and holds one item per testimonial, the current
index is that of an item, and that item alone is active. -/
def TestimonialsManager.OneActive (t : TestimonialsManager) : Prop :=
  ∃ (items : List Bool) (c : Nat), t.slider = some items ∧
    items.length = t.testimonials.length ∧
    t.currentTestimonial = .int (c : Int) ∧ ExactlyActive items c

/-- A testimonials slider as the constructor builds it before `init` runs. -/
def testimonialsBlank : TestimonialsManager :=
  { slider := some []
    testimonials := TestimonialsManager.data
    currentTestimonial := .int 0
    isAutoPlaying := true
    autoplayInterval := none
    autoplayDelay := 6000
    env := Clock.fresh }

/-- The elements of the page after `clearFieldError` and then
`showFieldError(field, message)` for the field of the given name. -/
def shownError (page : List ErrorElement) (name message : String) : List ErrorElement :=
  setErrorElement (setErrorElement page (name ++ "-error") "" "none") (name ++ "-error")
    message "block"

/-- A message field holding a text of twelve characters between spaces. -/
def sampleMessage : FormField :=
  { tag := Tag.textarea, name := "message", value := JsString.ofString "  Hello there!  ",
    required := true, borderColor := "" }

/-- A name field holding two letters and a digit. -/
def sampleName : FormField :=
  { tag := Tag.input, name := "name", value := JsString.ofString "Al4",
    required := true, borderColor := "" }

/-- A name field holding `a`, a tab (code unit 9) and `b`. -/
def tabbedName : FormField :=
  { tag := Tag.input, name := "name", value := JsString.ofString "a\tb",
    required := true, borderColor := "" }

/-- A page with the error elements of the name and of the message. -/
def samplePage : List ErrorElement :=
  [{ id := "name-error", textContent := "", display := "none" },
   { id := "message-error", textContent := "", display := "none" }]

/-- The control matches `input[required], textarea[required]`. -/
def selRequired (f : FormField) : Bool :=
  f.tag != Tag.select && f.required

/-- The control matches `input:not([required]), textarea:not([required])` and its
trimmed value is not empty. -/
def selOptional (f : FormField) : Bool :=
  f.tag != Tag.select && !f.required && !(JsString.trim f.value).isEmpty

/-- A form with an empty required name, a wrong required email, an optional phone
left empty, an optional phone holding letters, and a valid required message. -/
def sampleForm : List FormField :=
  [ { tag := Tag.input, name := "name", value := [], required := true, borderColor := "" },
    { tag := Tag.input, name := "email", value := JsString.ofString "x", required := true,
      borderColor := "" },
    { tag := Tag.input, name := "phone", value := [], required := false, borderColor := "" },
    { tag := Tag.input, name := "phone", value := JsString.ofString "abc", required := false,
      borderColor := "" },
    sampleMessage ]

/-- The gallery right after construction over a page with an empty grid, three
filter buttons and the elements of the modal, for the items of the source. -/
def sampleGallery : GalleryManager :=
  GalleryManager.new (some (GalleryGrid.mk [] []))
    [{ dataFilter := some "all", active := true },
     { dataFilter := some "personal", active := false },
     { dataFilter := some "convoy", active := false }]
    (some "none") (some "") (some "") GalleryManager.data

/-- The same gallery with the filter `personal` chosen and not yet rendered. -/
def personalGallery : GalleryManager :=
  { sampleGallery with currentFilter := some "personal" }

/-- The gallery with the grid that `renderGallery` writes when the grid exists. -/
def GalleryManager.rendered (g : GalleryManager) : GalleryManager :=
  let grid := GalleryGrid.mk (GalleryManager.renderItems 0 g.filteredItems) g.filteredItems
  { g with galleryGrid := some grid }

/-- The wording of the specification for a phone number: an optional `+` (43)
followed by 1 to 16 digits whose first digit is not `0` (48). -/
def IsPhoneNumber (v : JsString) : Prop :=
  ∃ digits : JsString, (v = digits ∨ v = 43 :: digits) ∧
    1 ≤ digits.length ∧ digits.length ≤ 16 ∧
    (∀ d ∈ digits, JsString.isDigit d = true) ∧ digits.head? ≠ some 48

/-- An optional phone field holding the given value. -/
def phoneField (value : JsString) : FormField :=
  { tag := Tag.input, name := "phone", value := value, required := false, borderColor := "" }

/-- The theme manager on a first visit: nothing is stored. -/
def themeFirstVisit : ThemeManager :=
  ThemeManager.new [] none (some "fas fa-moon")

/-- The theme manager constructed over an empty string stored under `theme`. -/
def themeEmptyStored : ThemeManager :=
  ThemeManager.new [("theme", "")] none (some "fas fa-moon")

/-- The theme manager constructed over `dark` stored under `theme`. -/
def themeDarkStored : ThemeManager :=
  ThemeManager.new [("lang", "en"), ("theme", "dark")] none (some "fas fa-moon")

/-! ## Arithmetic of the wrapped index -/

theorem JsNum.rem_natCast (a N : Nat) (hN : 0 < N) :
    (JsNum.int (a : Int)).rem (.int (N : Int)) = .int ((a % N : Nat) : Int) := by
  have h : (N : Int) ≠ 0 := by omega
  simp only [JsNum.rem, h, if_false]
  exact congrArg JsNum.int (Int.ofNat_tmod a N).symm

theorem JsNum.next_natCast (c N : Nat) (hN : 0 < N) :
    ((JsNum.int (c : Int)).add (.int 1)).rem (.int (N : Int))
      = .int (((c + 1) % N : Nat) : Int) := by
  have h : (JsNum.int (c : Int)).add (.int 1) = .int ((c + 1 : Nat) : Int) := by
    simp [JsNum.add]
  rw [h, JsNum.rem_natCast _ _ hN]

theorem JsNum.prev_natCast (c N : Nat) (hN : 0 < N) :
    (((JsNum.int (c : Int)).sub (.int 1)).add (.int (N : Int))).rem (.int (N : Int))
      = .int (((c + N - 1) % N : Nat) : Int) := by
  have h : ((JsNum.int (c : Int)).sub (.int 1)).add (.int (N : Int))
      = .int ((c + N - 1 : Nat) : Int) := by
    simp only [JsNum.sub, JsNum.add]
    congr 1
    omega
  rw [h, JsNum.rem_natCast _ _ hN]

theorem wrapIndex_of_inRange (k N : Nat) (hk : k < N) :
    wrapIndex (k : Int) (N : Int) = .int (k : Int) := by
  have hN : 0 < N := by omega
  unfold wrapIndex
  rw [JsNum.rem_natCast _ _ hN, Nat.mod_eq_of_lt hk]
  have h : (JsNum.int (k : Int)).add (.int (N : Int)) = .int ((k + N : Nat) : Int) := by
    simp [JsNum.add]
  rw [h, JsNum.rem_natCast _ _ hN]
  congr 2
  rw [Nat.add_mod_right, Nat.mod_eq_of_lt hk]

theorem next_then_prev_index (c N : Nat) (hc : c < N) : ((c + 1) % N + N - 1) % N = c := by
  rcases Nat.lt_or_ge (c + 1) N with h | h
  · rw [Nat.mod_eq_of_lt h]
    have e : c + 1 + N - 1 = c + N := by omega
    rw [e, Nat.add_mod_right, Nat.mod_eq_of_lt hc]
  · have e : c + 1 = N := by omega
    rw [e, Nat.mod_self]
    have e2 : 0 + N - 1 = c := by omega
    rw [e2, Nat.mod_eq_of_lt hc]

theorem setActive_natCast (xs : List Bool) (c : Nat) (b : Bool) (hc : c < xs.length) :
    setActive xs (.int (c : Int)) b = some (xs.set c b) := by
  simp [setActive, hc]

/-! ## Frame lemmas of the hero slider -/

namespace HeroSliderManager

@[simp] theorem stopAutoplay_slides (s : HeroSliderManager) :
    (stopAutoplay s).slides = s.slides := by
  unfold stopAutoplay; split <;> rfl

@[simp] theorem stopAutoplay_indicators (s : HeroSliderManager) :
    (stopAutoplay s).indicators = s.indicators := by
  unfold stopAutoplay; split <;> rfl

@[simp] theorem stopAutoplay_currentSlide (s : HeroSliderManager) :
    (stopAutoplay s).currentSlide = s.currentSlide := by
  unfold stopAutoplay; split <;> rfl

@[simp] theorem stopAutoplay_isPlaying (s : HeroSliderManager) :
    (stopAutoplay s).isPlaying = s.isPlaying := by
  unfold stopAutoplay; split <;> rfl

@[simp] theorem stopAutoplay_autoplayDelay (s : HeroSliderManager) :
    (stopAutoplay s).autoplayDelay = s.autoplayDelay := by
  unfold stopAutoplay; split <;> rfl

@[simp] theorem stopAutoplay_autoplayInterval (s : HeroSliderManager) :
    (stopAutoplay s).autoplayInterval = none := by
  unfold stopAutoplay; split <;> simp_all

@[simp] theorem startAutoplay_slides (s : HeroSliderManager) :
    (startAutoplay s).slides = s.slides := by
  unfold startAutoplay; split <;> rfl

@[simp] theorem startAutoplay_indicators (s : HeroSliderManager) :
    (startAutoplay s).indicators = s.indicators := by
  unfold startAutoplay; split <;> rfl

@[simp] theorem startAutoplay_currentSlide (s : HeroSliderManager) :
    (startAutoplay s).currentSlide = s.currentSlide := by
  unfold startAutoplay; split <;> rfl

@[simp] theorem startAutoplay_isPlaying (s : HeroSliderManager) :
    (startAutoplay s).isPlaying = s.isPlaying := by
  unfold startAutoplay; split <;> rfl

@[simp] theorem startAutoplay_autoplayDelay (s : HeroSliderManager) :
    (startAutoplay s).autoplayDelay = s.autoplayDelay := by
  unfold startAutoplay; split <;> rfl

theorem goToSlide_valid (s : HeroSliderManager) (c k : Nat)
    (hcur : s.currentSlide = .int (c : Int))
    (hc : c < s.slides.length) (hci : c < s.indicators.length)
    (hk : k < s.slides.length) (hki : k < s.indicators.length) :
    goToSlide s (.int (k : Int))
      = .ok (if s.isPlaying then restartAutoplay (moved s c k) else moved s c k) := by
  unfold goToSlide
  simp only [hcur, setActive_natCast _ _ _ hc, setActive_natCast _ _ _ hci]
  rw [setActive_natCast _ _ _ (by simpa using hk), setActive_natCast _ _ _ (by simpa using hki)]
  simp only [moved, hcur]
  split <;> rfl

end HeroSliderManager

namespace HeroSliderManager

theorem nextSlide_valid (s : HeroSliderManager) (c : Nat)
    (hcur : s.currentSlide = .int (c : Int)) (hN : 0 < s.slides.length) :
    nextSlide s = goToSlide s (.int (((c + 1) % s.slides.length : Nat) : Int)) := by
  unfold nextSlide
  simp only [hcur]
  rw [JsNum.next_natCast _ _ hN]

theorem previousSlide_valid (s : HeroSliderManager) (c : Nat)
    (hcur : s.currentSlide = .int (c : Int)) (hN : 0 < s.slides.length) :
    previousSlide s
      = goToSlide s (.int (((c + s.slides.length - 1) % s.slides.length : Nat) : Int)) := by
  unfold previousSlide
  simp only [hcur]
  rw [JsNum.prev_natCast _ _ hN]

@[simp] theorem restartAutoplay_slides (s : HeroSliderManager) :
    (restartAutoplay s).slides = s.slides := by
  simp [restartAutoplay]

@[simp] theorem restartAutoplay_indicators (s : HeroSliderManager) :
    (restartAutoplay s).indicators = s.indicators := by
  simp [restartAutoplay]

@[simp] theorem restartAutoplay_currentSlide (s : HeroSliderManager) :
    (restartAutoplay s).currentSlide = s.currentSlide := by
  simp [restartAutoplay]

@[simp] theorem restartAutoplay_isPlaying (s : HeroSliderManager) :
    (restartAutoplay s).isPlaying = s.isPlaying := by
  simp [restartAutoplay]

/-- Whatever the target, `goToSlide` keeps the number of slides and of
indicators and the flag `isPlaying`, and the index it leaves is the old one or
the target. -/
theorem goToSlide_frame (s : HeroSliderManager) (index : JsNum) :
    (goToSlide s index).state.slides.length = s.slides.length ∧
    (goToSlide s index).state.indicators.length = s.indicators.length ∧
    (goToSlide s index).state.isPlaying = s.isPlaying ∧
    ((goToSlide s index).state.currentSlide = s.currentSlide ∨
      (goToSlide s index).state.currentSlide = index) := by
  unfold goToSlide
  cases h1 : setActive s.slides s.currentSlide false with
  | none => simp [Outcome.state]
  | some sl =>
    have l1 : sl.length = s.slides.length := by
      unfold setActive at h1
      split at h1
      · split at h1
        · cases h1; simp
        · cases h1
      · cases h1
    simp only []
    cases h2 : setActive s.indicators s.currentSlide false with
    | none => simp [Outcome.state, l1]
    | some ind =>
      have l2 : ind.length = s.indicators.length := by
        unfold setActive at h2
        split at h2
        · split at h2
          · cases h2; simp
          · cases h2
        · cases h2
      simp only []
      cases h3 : setActive sl index true with
      | none => simp [Outcome.state, l1, l2]
      | some sl2 =>
        have l3 : sl2.length = s.slides.length := by
          unfold setActive at h3
          split at h3
          · split at h3
            · cases h3; simp [l1]
            · cases h3
          · cases h3
        simp only []
        cases h4 : setActive ind index true with
        | none => simp [Outcome.state, l2, l3]
        | some ind2 =>
          have l4 : ind2.length = s.indicators.length := by
            unfold setActive at h4
            split at h4
            · split at h4
              · cases h4; simp [l2]
              · cases h4
            · cases h4
          simp only []
          split <;> simp [Outcome.state, l3, l4, *]

end HeroSliderManager

theorem setActive_length (xs ys : List Bool) (i : JsNum) (b : Bool)
    (h : setActive xs i b = some ys) : ys.length = xs.length := by
  unfold setActive at h
  split at h
  · split at h
    · cases h; simp
    · cases h
  · cases h

/-! ## Frame lemmas of the testimonials slider -/

namespace TestimonialsManager

@[simp] theorem stopAutoplay_slider (s : TestimonialsManager) :
    (stopAutoplay s).slider = s.slider := by
  unfold stopAutoplay; split <;> rfl

@[simp] theorem stopAutoplay_testimonials (s : TestimonialsManager) :
    (stopAutoplay s).testimonials = s.testimonials := by
  unfold stopAutoplay; split <;> rfl

@[simp] theorem stopAutoplay_currentTestimonial (s : TestimonialsManager) :
    (stopAutoplay s).currentTestimonial = s.currentTestimonial := by
  unfold stopAutoplay; split <;> rfl

@[simp] theorem stopAutoplay_isAutoPlaying (s : TestimonialsManager) :
    (stopAutoplay s).isAutoPlaying = s.isAutoPlaying := by
  unfold stopAutoplay; split <;> rfl

@[simp] theorem stopAutoplay_autoplayInterval_testimonials (s : TestimonialsManager) :
    (stopAutoplay s).autoplayInterval = none := by
  unfold stopAutoplay; split <;> simp_all

@[simp] theorem startAutoplay_slider (s : TestimonialsManager) :
    (startAutoplay s).slider = s.slider := by
  unfold startAutoplay; split <;> rfl

@[simp] theorem startAutoplay_testimonials (s : TestimonialsManager) :
    (startAutoplay s).testimonials = s.testimonials := by
  unfold startAutoplay; split <;> rfl

@[simp] theorem startAutoplay_currentTestimonial (s : TestimonialsManager) :
    (startAutoplay s).currentTestimonial = s.currentTestimonial := by
  unfold startAutoplay; split <;> rfl

@[simp] theorem startAutoplay_isAutoPlaying (s : TestimonialsManager) :
    (startAutoplay s).isAutoPlaying = s.isAutoPlaying := by
  unfold startAutoplay; split <;> rfl

theorem goToTestimonial_valid (s : TestimonialsManager) (items : List Bool) (c k : Nat)
    (hs : s.slider = some items) (hcur : s.currentTestimonial = .int (c : Int))
    (hc : c < items.length) (hk : k < items.length) :
    goToTestimonial s (.int (k : Int)) = .ok (moved s items c k) := by
  unfold goToTestimonial
  simp only [hs, hcur, setActive_natCast _ _ _ hc]
  rw [setActive_natCast _ _ _ (by simpa using hk)]
  rfl

theorem nextTestimonial_valid (s : TestimonialsManager) (c : Nat)
    (hcur : s.currentTestimonial = .int (c : Int)) (hN : 0 < s.testimonials.length) :
    nextTestimonial s
      = goToTestimonial s (.int (((c + 1) % s.testimonials.length : Nat) : Int)) := by
  unfold nextTestimonial
  simp only [hcur]
  rw [JsNum.next_natCast _ _ hN]

theorem previousTestimonial_valid (s : TestimonialsManager) (c : Nat)
    (hcur : s.currentTestimonial = .int (c : Int)) (hN : 0 < s.testimonials.length) :
    previousTestimonial s
      = goToTestimonial s
          (.int (((c + s.testimonials.length - 1) % s.testimonials.length : Nat) : Int)) := by
  unfold previousTestimonial
  simp only [hcur]
  rw [JsNum.prev_natCast _ _ hN]

/-- Whatever the target, `goToTestimonial` keeps the list of testimonials and
the flag `isAutoPlaying`, touches no timer, and the index it leaves is the old
one or the target. -/
theorem goToTestimonial_frame (s : TestimonialsManager) (index : JsNum) :
    (goToTestimonial s index).state.testimonials = s.testimonials ∧
    (goToTestimonial s index).state.isAutoPlaying = s.isAutoPlaying ∧
    (goToTestimonial s index).state.env = s.env ∧
    (goToTestimonial s index).state.autoplayInterval = s.autoplayInterval ∧
    ((goToTestimonial s index).state.currentTestimonial = s.currentTestimonial ∨
      (goToTestimonial s index).state.currentTestimonial = index) := by
  unfold goToTestimonial
  cases s.slider with
  | none => simp [Outcome.state]
  | some items =>
    simp only []
    cases setActive items s.currentTestimonial false with
    | none => simp [Outcome.state]
    | some t1 =>
      simp only []
      cases setActive t1 index true with
      | none => simp [Outcome.state]
      | some t2 => simp [Outcome.state]

end TestimonialsManager

/-! ## A navigation that ends normally -/

theorem HeroSliderManager.goToSlide_ok (s : HeroSliderManager) (c k : Nat)
    (hcur : s.currentSlide = .int (c : Int))
    (hc : c < s.slides.length) (hci : c < s.indicators.length)
    (hk : k < s.slides.length) (hki : k < s.indicators.length) :
    ∃ s1, goToSlide s (.int (k : Int)) = .ok s1 ∧ s1.currentSlide = .int (k : Int) ∧
      s1.slides.length = s.slides.length ∧ s1.indicators.length = s.indicators.length ∧
      s1.isPlaying = s.isPlaying := by
  refine ⟨_, goToSlide_valid s c k hcur hc hci hk hki, ?_⟩
  split <;> simp [moved]

theorem TestimonialsManager.goToTestimonial_ok (s : TestimonialsManager) (items : List Bool)
    (c k : Nat) (hs : s.slider = some items) (hcur : s.currentTestimonial = .int (c : Int))
    (hc : c < items.length) (hk : k < items.length) :
    ∃ s1 items1, goToTestimonial s (.int (k : Int)) = .ok s1 ∧
      s1.currentTestimonial = .int (k : Int) ∧ s1.slider = some items1 ∧
      items1.length = items.length ∧ s1.testimonials = s.testimonials := by
  refine ⟨_, _, goToTestimonial_valid s items c k hs hcur hc hk, rfl, rfl, ?_, rfl⟩
  simp

/-! ## Navigation to an index -/

/-- C1, as stated, fails: on five slides `goToSlide(7)` and `goToTestimonial(7)`
end with a `TypeError` and leave the index 7, where the claim promises
`((7 % 5) + 5) % 5 = 2`. -/
theorem goTo_out_of_range_not_normalised :
    wrapIndex 7 5 = .int 2 ∧
    (HeroSliderManager.goToSlide heroFive (.int 7)).state.currentSlide = .int 7 ∧
    (HeroSliderManager.goToSlide heroFive (.int 7)).isOk = false ∧
    (TestimonialsManager.goToTestimonial testimonialsFive (.int 7)).state.currentTestimonial
      = .int 7 ∧
    (TestimonialsManager.goToTestimonial testimonialsFive (.int 7)).isOk = false := by
  decide

/-- C1 (amended): with `N ≥ 1` slides (and at least `N` indicators for the hero
slider) and a current index in `[0, N)`, `goToSlide(k)` and `goToTestimonial(k)`
leave the current index equal to `k` itself for every integer `k`; when
`0 ≤ k < N` the call ends normally and `k` is `((k % N) + N) % N`. -/
theorem goTo_sets_index (h : HeroSliderManager) (t : TestimonialsManager)
    (items : List Bool) (N c d : Nat) (k : Int)
    (hN : h.slides.length = N) (hI : N ≤ h.indicators.length)
    (hcur : h.currentSlide = .int (c : Int)) (hc : c < N)
    (tS : t.slider = some items) (tN : items.length = N)
    (tcur : t.currentTestimonial = .int (d : Int)) (hd : d < N) :
    (HeroSliderManager.goToSlide h (.int k)).state.currentSlide = .int k ∧
    (TestimonialsManager.goToTestimonial t (.int k)).state.currentTestimonial = .int k ∧
    (0 ≤ k → k < (N : Int) →
      (HeroSliderManager.goToSlide h (.int k)).isOk = true ∧
      (TestimonialsManager.goToTestimonial t (.int k)).isOk = true ∧
      wrapIndex k (N : Int) = .int k) := by
  subst hN
  have hci : c < h.indicators.length := by omega
  refine ⟨?_, ?_, ?_⟩
  · unfold HeroSliderManager.goToSlide
    simp only [hcur, setActive_natCast _ _ _ hc, setActive_natCast _ _ _ hci]
    split
    · rfl
    · split
      · rfl
      · split <;> simp [Outcome.state]
  · unfold TestimonialsManager.goToTestimonial
    simp only [tS, tcur, setActive_natCast _ _ _ (by omega : d < items.length)]
    split <;> rfl
  · intro h0 hlt
    obtain ⟨n, rfl⟩ := Int.eq_ofNat_of_zero_le h0
    have hn : n < h.slides.length := by omega
    rw [HeroSliderManager.goToSlide_valid h c n hcur hc hci hn (by omega),
      TestimonialsManager.goToTestimonial_valid t items d n tS tcur (by omega) (by omega)]
    exact ⟨rfl, rfl, wrapIndex_of_inRange n _ hn⟩

/-- Witness of `goTo_sets_index`: five slides, from index 0 to index 3. -/
theorem goTo_sets_index_witness :
    (HeroSliderManager.goToSlide heroFive (.int 3)).state.currentSlide = .int 3 ∧
    (TestimonialsManager.goToTestimonial testimonialsFive (.int 3)).state.currentTestimonial
      = .int 3 ∧
    (0 ≤ (3 : Int) → (3 : Int) < ((5 : Nat) : Int) →
      (HeroSliderManager.goToSlide heroFive (.int 3)).isOk = true ∧
      (TestimonialsManager.goToTestimonial testimonialsFive (.int 3)).isOk = true ∧
      wrapIndex 3 ((5 : Nat) : Int) = .int 3) :=
  goTo_sets_index heroFive testimonialsFive [true, false, false, false, false] 5 0 0 3
    (by decide) (by decide) (by decide) (by decide) (by decide) (by decide) (by decide)
    (by decide)

/-! ## next followed by previous -/

/-- C3: with `N ≥ 1` slides (and at least `N` indicators for the hero slider;
for the testimonials, the `N` items that `renderTestimonials` wrote), from every
index `i` of `[0, N)`, `nextSlide` then `previousSlide`, and `nextTestimonial`
then `previousTestimonial`, both end normally and leave the current index equal
to `i`. -/
theorem next_then_previous_restores_index (h : HeroSliderManager) (t : TestimonialsManager)
    (items : List Bool) (N i : Nat)
    (hN : h.slides.length = N) (hI : N ≤ h.indicators.length)
    (hcur : h.currentSlide = .int (i : Int))
    (tS : t.slider = some items) (tN : items.length = N) (tL : t.testimonials.length = N)
    (tcur : t.currentTestimonial = .int (i : Int)) (hi : i < N) :
    (∃ h1 h2, HeroSliderManager.nextSlide h = .ok h1 ∧
      HeroSliderManager.previousSlide h1 = .ok h2 ∧ h2.currentSlide = .int (i : Int)) ∧
    (∃ t1 t2, TestimonialsManager.nextTestimonial t = .ok t1 ∧
      TestimonialsManager.previousTestimonial t1 = .ok t2 ∧
      t2.currentTestimonial = .int (i : Int)) := by
  subst hN
  have hpos : 0 < h.slides.length := by omega
  have hm : (i + 1) % h.slides.length < h.slides.length := Nat.mod_lt _ hpos
  have hp : ((i + 1) % h.slides.length + h.slides.length - 1) % h.slides.length = i :=
    next_then_prev_index i _ hi
  constructor
  · obtain ⟨h1, e1, c1, l1, m1, _⟩ :=
      HeroSliderManager.goToSlide_ok h i _ hcur hi (by omega) hm (by omega)
    rw [← HeroSliderManager.nextSlide_valid h i hcur hpos] at e1
    have e2 := HeroSliderManager.previousSlide_valid h1 _ c1 (by omega)
    rw [l1, hp] at e2
    obtain ⟨h2, e3, c2, _⟩ :=
      HeroSliderManager.goToSlide_ok h1 _ i c1 (by omega) (by omega) (by omega) (by omega)
    exact ⟨h1, h2, e1, e2.trans e3, c2⟩
  · have tpos : 0 < t.testimonials.length := by omega
    obtain ⟨t1, items1, e1, c1, s1, l1, d1⟩ :=
      TestimonialsManager.goToTestimonial_ok t items i ((i + 1) % h.slides.length)
        tS tcur (by omega) (by omega)
    have n1 := TestimonialsManager.nextTestimonial_valid t i tcur tpos
    rw [tL] at n1
    have e2 := TestimonialsManager.previousTestimonial_valid t1 _ c1 (by rw [d1]; omega)
    rw [d1, tL, hp] at e2
    obtain ⟨t2, _, e3, c2, _⟩ :=
      TestimonialsManager.goToTestimonial_ok t1 items1 _ i s1 c1 (by omega) (by omega)
    exact ⟨t1, t2, n1.trans e1, e2.trans e3, c2⟩

/-- Witness of `next_then_previous_restores_index`: five slides, index 0. -/
theorem next_then_previous_restores_index_witness :
    (∃ h1 h2, HeroSliderManager.nextSlide heroFive = .ok h1 ∧
      HeroSliderManager.previousSlide h1 = .ok h2 ∧ h2.currentSlide = .int ((0 : Nat) : Int)) ∧
    (∃ t1 t2, TestimonialsManager.nextTestimonial testimonialsFive = .ok t1 ∧
      TestimonialsManager.previousTestimonial t1 = .ok t2 ∧
      t2.currentTestimonial = .int ((0 : Nat) : Int)) :=
  next_then_previous_restores_index heroFive testimonialsFive
    [true, false, false, false, false] 5 0
    (by decide) (by decide) (by decide) (by decide) (by decide) (by decide) (by decide)
    (by decide)

/-! ## The index stays in range -/

theorem JsNum.InRange.next {i : JsNum} {n : Nat} (h : i.InRange n) :
    ((i.add (.int 1)).rem (.int (n : Int))).InRange n := by
  obtain ⟨c, hc, rfl⟩ := h
  have hn : 0 < n := by omega
  rw [JsNum.next_natCast _ _ hn]
  exact ⟨_, Nat.mod_lt _ hn, rfl⟩

theorem JsNum.InRange.prev {i : JsNum} {n : Nat} (h : i.InRange n) :
    (((i.sub (.int 1)).add (.int (n : Int))).rem (.int (n : Int))).InRange n := by
  obtain ⟨c, hc, rfl⟩ := h
  have hn : 0 < n := by omega
  rw [JsNum.prev_natCast _ _ hn]
  exact ⟨_, Nat.mod_lt _ hn, rfl⟩

namespace HeroSliderManager

theorem goToSlide_keeps (s : HeroSliderManager) (index : JsNum)
    (hs : s.currentSlide.InRange s.slides.length) (hi : index.InRange s.slides.length) :
    Keeps s (goToSlide s index).state := by
  obtain ⟨l, _, _, c⟩ := goToSlide_frame s index
  refine ⟨l, ?_⟩
  rcases c with c | c <;> rw [c] <;> assumption

theorem timerFire_keeps (s : HeroSliderManager)
    (hs : s.currentSlide.InRange s.slides.length) : Keeps s (timerFire s) := by
  unfold timerFire
  split
  · exact ⟨rfl, hs⟩
  · rename_i t _
    exact goToSlide_keeps { s with env := s.env.moveTo t.due } _ hs hs.next

theorem step_keeps (s : HeroSliderManager) (e : HeroEvent)
    (hs : s.currentSlide.InRange s.slides.length)
    (he : ∀ i, e = .goToSlide i → i < s.slides.length) : Keeps s (step s e) := by
  cases e with
  | nextSlide => exact goToSlide_keeps s _ hs hs.next
  | previousSlide => exact goToSlide_keeps s _ hs hs.prev
  | goToSlide i => exact goToSlide_keeps s _ hs ⟨i, he i rfl, rfl⟩
  | toggleAutoplay =>
    simp only [step, toggleAutoplay, Keeps]
    split <;> simp <;> exact hs
  | mouseenter =>
    simp only [step, onMouseEnter, Keeps]
    split <;> simp <;> exact hs
  | mouseleave =>
    simp only [step, onMouseLeave, Keeps]
    split <;> simp <;> exact hs
  | visibilityHidden =>
    simp only [step, onVisibilityChange, Keeps]
    simp
    exact hs
  | visibilityVisible =>
    simp only [step, onVisibilityChange, Keeps]
    simp
    split <;> simp <;> exact hs
  | timerFire => exact timerFire_keeps s hs

theorem run_keeps (es : List HeroEvent) :
    ∀ s : HeroSliderManager, s.currentSlide.InRange s.slides.length →
      (∀ e ∈ es, ∀ i, e = .goToSlide i → i < s.slides.length) → Keeps s (run s es) := by
  induction es with
  | nil => intro s hs _; exact ⟨rfl, hs⟩
  | cons e es ih =>
    intro s hs he
    obtain ⟨l, r⟩ := step_keeps s e hs (he e (List.mem_cons_self _ _))
    have k := ih (step s e) (l ▸ r) (fun e1 h1 i hi => by
      rw [l]; exact he e1 (List.mem_cons_of_mem _ h1) i hi)
    exact ⟨k.1.trans l, l ▸ k.2⟩

end HeroSliderManager

namespace TestimonialsManager

theorem goToTestimonial_keeps (s : TestimonialsManager) (index : JsNum)
    (hs : s.currentTestimonial.InRange s.testimonials.length)
    (hi : index.InRange s.testimonials.length) :
    Keeps s (goToTestimonial s index).state := by
  obtain ⟨l, _, _, _, c⟩ := goToTestimonial_frame s index
  refine ⟨l, ?_⟩
  rcases c with c | c <;> rw [c] <;> assumption

theorem restart_after_keeps (s : TestimonialsManager) (o : Outcome TestimonialsManager)
    (h : Keeps s o.state) :
    Keeps s (match o with
      | .ok s1 => Outcome.ok (restartAutoplay s1)
      | .typeError s1 => Outcome.typeError s1).state := by
  cases o with
  | ok s1 => simpa [Keeps, Outcome.state, restartAutoplay] using h
  | typeError s1 => exact h

theorem timerFire_keeps_testimonials (s : TestimonialsManager)
    (hs : s.currentTestimonial.InRange s.testimonials.length) : Keeps s (timerFire s) := by
  unfold timerFire
  split
  · exact ⟨rfl, hs⟩
  · rename_i t _
    exact goToTestimonial_keeps { s with env := s.env.moveTo t.due } _ hs hs.next

theorem step_keeps_testimonials (s : TestimonialsManager) (e : TestimonialEvent)
    (hs : s.currentTestimonial.InRange s.testimonials.length)
    (he : ∀ i, e = .goToTestimonial i → i < s.testimonials.length) : Keeps s (step s e) := by
  cases e with
  | prevClick => exact restart_after_keeps s _ (goToTestimonial_keeps s _ hs hs.prev)
  | nextClick => exact restart_after_keeps s _ (goToTestimonial_keeps s _ hs hs.next)
  | arrowLeft => exact restart_after_keeps s _ (goToTestimonial_keeps s _ hs hs.prev)
  | arrowRight => exact restart_after_keeps s _ (goToTestimonial_keeps s _ hs hs.next)
  | mouseenter =>
    simp only [step, onMouseEnter, Keeps]
    simp
    exact hs
  | mouseleave =>
    simp only [step, onMouseLeave, Keeps]
    split <;> simp <;> exact hs
  | timerFire => exact timerFire_keeps_testimonials s hs
  | nextTestimonial => exact goToTestimonial_keeps s _ hs hs.next
  | previousTestimonial => exact goToTestimonial_keeps s _ hs hs.prev
  | goToTestimonial i => exact goToTestimonial_keeps s _ hs ⟨i, he i rfl, rfl⟩

theorem run_keeps_testimonials (es : List TestimonialEvent) :
    ∀ s : TestimonialsManager, s.currentTestimonial.InRange s.testimonials.length →
      (∀ e ∈ es, ∀ i, e = .goToTestimonial i → i < s.testimonials.length) →
      Keeps s (run s es) := by
  induction es with
  | nil => intro s hs _; exact ⟨rfl, hs⟩
  | cons e es ih =>
    intro s hs he
    obtain ⟨l, r⟩ := step_keeps_testimonials s e hs (he e (List.mem_cons_self _ _))
    have k := ih (step s e) (l ▸ r) (fun e1 h1 i hi => by
      rw [l]; exact he e1 (List.mem_cons_of_mem _ h1) i hi)
    exact ⟨k.1.trans l, l ▸ k.2⟩

end TestimonialsManager

/-- C4: with `N ≥ 1` slides and the current index in `[0, N)`, after any sequence
of `nextSlide`, `previousSlide` and timer fires on the hero slider, and of
`nextTestimonial`, `previousTestimonial` and timer fires on the testimonials
slider, the number of slides is still `N` and the current index is an integer
of `[0, N)`; for `N = 1` it is 0. -/
theorem index_stays_in_range (h : HeroSliderManager) (t : TestimonialsManager) (N : Nat)
    (es : List HeroEvent) (ts : List TestimonialEvent)
    (hN : h.slides.length = N) (tN : t.testimonials.length = N)
    (hcur : h.currentSlide.InRange N) (tcur : t.currentTestimonial.InRange N)
    (hes : ∀ e ∈ es, e = .nextSlide ∨ e = .previousSlide ∨ e = .timerFire)
    (hts : ∀ e ∈ ts, e = .nextTestimonial ∨ e = .previousTestimonial ∨ e = .timerFire) :
    (h.run es).slides.length = N ∧ (t.run ts).testimonials.length = N ∧
    (∃ c : Int, (h.run es).currentSlide = .int c ∧ 0 ≤ c ∧ c < N) ∧
    (∃ d : Int, (t.run ts).currentTestimonial = .int d ∧ 0 ≤ d ∧ d < N) ∧
    (N = 1 → (h.run es).currentSlide = .int 0 ∧ (t.run ts).currentTestimonial = .int 0) := by
  subst hN
  have kh := HeroSliderManager.run_keeps es h hcur (fun e he i hi => by
    rcases hes e he with r | r | r <;> rw [r] at hi <;> cases hi)
  have kt := TestimonialsManager.run_keeps_testimonials ts t (tN ▸ tcur) (fun e he i hi => by
    rcases hts e he with r | r | r <;> rw [r] at hi <;> cases hi)
  obtain ⟨l1, c, hc, e1⟩ := kh
  obtain ⟨l2, d, hd, e2⟩ := kt
  refine ⟨l1, by rw [l2, tN], ⟨c, e1, by omega, by omega⟩, ⟨d, e2, by omega, by omega⟩, ?_⟩
  intro h1
  have c0 : c = 0 := by omega
  have d0 : d = 0 := by omega
  subst c0 d0
  exact ⟨e1, e2⟩

/-- Witness of `index_stays_in_range`: a single slide in both sliders, where
every navigation leaves the index 0. -/
theorem index_stays_in_range_witness :
    (heroOne.run [.previousSlide, .timerFire, .nextSlide]).currentSlide = .int 0 ∧
    (testimonialsOne.run
      [.previousTestimonial, .timerFire, .nextTestimonial]).currentTestimonial = .int 0 :=
  (index_stays_in_range heroOne testimonialsOne 1
    [.previousSlide, .timerFire, .nextSlide] [.previousTestimonial, .timerFire, .nextTestimonial]
    (by decide) (by decide) ⟨0, by decide, by decide⟩ ⟨0, by decide, by decide⟩
    (by decide) (by decide)).2.2.2.2 rfl

/-! ## Timer uniqueness -/

/-- C2, failing input: after construction over five slides, `mouseenter`, a
navigation to the next slide and `mouseleave` leave two autoplay intervals armed
in the hero slider (handles 2 and 3, only 3 still held in `autoplayInterval`),
and likewise in the testimonials slider. -/
theorem two_intervals_armed_after_hover_navigation :
    heroFive.env.timers = [{ id := 1, due := 5000, delay := 5000 }] ∧
    (heroFive.run [.mouseenter, .nextSlide, .mouseleave]).env.timers
      = [{ id := 2, due := 5000, delay := 5000 }, { id := 3, due := 5000, delay := 5000 }] ∧
    (heroFive.run [.mouseenter, .nextSlide, .mouseleave]).autoplayInterval = some 3 ∧
    (testimonialsFive.run [.mouseenter, .nextClick, .mouseleave]).env.timers
      = [{ id := 2, due := 6000, delay := 6000 }, { id := 3, due := 6000, delay := 6000 }] ∧
    (testimonialsFive.run [.mouseenter, .nextClick, .mouseleave]).autoplayInterval = some 3 := by
  decide

/-! ## Construction over no slide -/

/-- C5, as stated, fails: over an empty sequence of slides both constructors
end normally, and the controller they yield has one autoplay interval armed. -/
theorem empty_slider_is_constructed :
    (HeroSliderManager.new [] [] none Clock.fresh).isOk = true ∧
    (HeroSliderManager.new [] [] none Clock.fresh).state.env.armed = 1 ∧
    (TestimonialsManager.new (some []) [] Clock.fresh).isOk = true ∧
    (TestimonialsManager.new (some []) [] Clock.fresh).state.env.armed = 1 := by
  decide

/-- C5 (amended): over an empty sequence of slides the constructor of either
slider ends normally and yields a controller with no slide, current index 0,
autoplay enabled and one more autoplay interval armed than before, whose handle
it holds. -/
theorem construction_over_no_slide (indicators : List Bool) (icon : Option String)
    (slider : Option (List Bool)) (env : Clock) :
    (∃ h, HeroSliderManager.new [] indicators icon env = .ok h ∧
      h.slides = [] ∧ h.currentSlide = .int 0 ∧ h.isPlaying = true ∧
      h.env.timers = env.timers ++ [{ id := env.nextId, due := env.now + 5000, delay := 5000 }] ∧
      h.autoplayInterval = some env.nextId) ∧
    (∃ t, TestimonialsManager.new slider [] env = .ok t ∧
      t.testimonials = [] ∧ t.currentTestimonial = .int 0 ∧ t.isAutoPlaying = true ∧
      t.env.timers = env.timers ++ [{ id := env.nextId, due := env.now + 6000, delay := 6000 }] ∧
      t.autoplayInterval = some env.nextId) := by
  constructor
  · exact ⟨_, rfl, rfl, rfl, rfl, rfl, rfl⟩
  · refine ⟨_, rfl, ?_⟩
    cases slider <;> exact ⟨rfl, rfl, rfl, rfl, rfl⟩

/-! ## Stopping and starting the autoplay -/

theorem Clock.filter_tracked_eq_nil (timers : List Timer) (id : Nat)
    (h : ∀ t ∈ timers, some id = some t.id) :
    timers.filter (fun t => t.id != id) = [] := by
  rw [List.filter_eq_nil_iff]
  intro t ht
  have e : id = t.id := Option.some.inj (h t ht)
  simp [e]

theorem HeroSliderManager.stopAutoplay_timers_of_tracked (s : HeroSliderManager)
    (h : s.Tracked) : (stopAutoplay s).env.timers = [] := by
  unfold Tracked at h
  unfold stopAutoplay
  cases hi : s.autoplayInterval with
  | none =>
    rw [hi] at h
    exact List.eq_nil_iff_forall_not_mem.mpr (fun t ht => by cases h t ht)
  | some id =>
    rw [hi] at h
    exact Clock.filter_tracked_eq_nil _ _ h

theorem TestimonialsManager.stopAutoplay_timers_of_tracked_testimonials (s : TestimonialsManager)
    (h : s.Tracked) : (stopAutoplay s).env.timers = [] := by
  unfold Tracked at h
  unfold stopAutoplay
  cases hi : s.autoplayInterval with
  | none =>
    rw [hi] at h
    exact List.eq_nil_iff_forall_not_mem.mpr (fun t ht => by cases h t ht)
  | some id =>
    rw [hi] at h
    exact Clock.filter_tracked_eq_nil _ _ h

theorem HeroSliderManager.stopAutoplay_idem (s : HeroSliderManager) :
    stopAutoplay (stopAutoplay s) = stopAutoplay s := by
  have h := stopAutoplay_autoplayInterval s
  generalize stopAutoplay s = r at h
  unfold stopAutoplay
  rw [h]

theorem TestimonialsManager.stopAutoplay_idem_testimonials (s : TestimonialsManager) :
    stopAutoplay (stopAutoplay s) = stopAutoplay s := by
  have h := stopAutoplay_autoplayInterval_testimonials s
  generalize stopAutoplay s = r at h
  unfold stopAutoplay
  rw [h]

theorem HeroSliderManager.startAutoplay_timers (s : HeroSliderManager)
    (h : s.isPlaying = true) :
    (startAutoplay s).env.timers
      = s.env.timers ++ [{ id := s.env.nextId, due := s.env.now + s.autoplayDelay,
                           delay := s.autoplayDelay }] ∧
    (startAutoplay s).autoplayInterval = some s.env.nextId := by
  simp [startAutoplay, h, Clock.setInterval]

theorem TestimonialsManager.startAutoplay_timers_testimonials (s : TestimonialsManager)
    (h : s.isAutoPlaying = true) :
    (startAutoplay s).env.timers
      = s.env.timers ++ [{ id := s.env.nextId, due := s.env.now + s.autoplayDelay,
                           delay := s.autoplayDelay }] ∧
    (startAutoplay s).autoplayInterval = some s.env.nextId := by
  simp [startAutoplay, h, Clock.setInterval]

theorem HeroSliderManager.startAutoplay_of_paused (s : HeroSliderManager)
    (h : s.isPlaying = false) : startAutoplay s = s := by
  simp [startAutoplay, h]

theorem TestimonialsManager.startAutoplay_of_paused_testimonials (s : TestimonialsManager)
    (h : s.isAutoPlaying = false) : startAutoplay s = s := by
  simp [startAutoplay, h]

/-- C9, failing input: right after construction (autoplay on, interval 1 armed
and held in `autoplayInterval`) a call of `startAutoplay` arms a second interval
and replaces the handle, in the hero slider and in the testimonials slider; the
claim says it leaves the state unchanged. -/
theorem startAutoplay_arms_a_second_interval :
    heroFive.isPlaying = true ∧ heroFive.autoplayInterval = some 1 ∧
    heroFive.env.timers = [{ id := 1, due := 5000, delay := 5000 }] ∧
    (HeroSliderManager.startAutoplay heroFive).env.timers
      = [{ id := 1, due := 5000, delay := 5000 }, { id := 2, due := 5000, delay := 5000 }] ∧
    (HeroSliderManager.startAutoplay heroFive).autoplayInterval = some 2 ∧
    testimonialsFive.isAutoPlaying = true ∧ testimonialsFive.autoplayInterval = some 1 ∧
    testimonialsFive.env.timers = [{ id := 1, due := 6000, delay := 6000 }] ∧
    (TestimonialsManager.startAutoplay testimonialsFive).env.timers
      = [{ id := 1, due := 6000, delay := 6000 }, { id := 2, due := 6000, delay := 6000 }] ∧
    (TestimonialsManager.startAutoplay testimonialsFive).autoplayInterval = some 2 := by
  decide

/-- C10: in a slider with autoplay enabled in which every armed interval is the
one held in `autoplayInterval` (as when at most one is armed and it is that
one), `stopAutoplay` twice
and then `startAutoplay` once leave exactly one interval armed, and its handle is
the one held in `autoplayInterval`. -/
theorem suspend_twice_then_resume (h : HeroSliderManager) (t : TestimonialsManager)
    (hp : h.isPlaying = true) (hh : h.Tracked)
    (tp : t.isAutoPlaying = true) (tt : t.Tracked) :
    (h.stopAutoplay.stopAutoplay.startAutoplay).env.armed = 1 ∧
    (h.stopAutoplay.stopAutoplay.startAutoplay).Tracked ∧
    (t.stopAutoplay.stopAutoplay.startAutoplay).env.armed = 1 ∧
    (t.stopAutoplay.stopAutoplay.startAutoplay).Tracked := by
  rw [HeroSliderManager.stopAutoplay_idem, TestimonialsManager.stopAutoplay_idem_testimonials]
  obtain ⟨a1, a2⟩ := HeroSliderManager.startAutoplay_timers h.stopAutoplay (by simpa using hp)
  obtain ⟨b1, b2⟩ :=
    TestimonialsManager.startAutoplay_timers_testimonials t.stopAutoplay (by simpa using tp)
  rw [HeroSliderManager.stopAutoplay_timers_of_tracked h hh] at a1
  rw [TestimonialsManager.stopAutoplay_timers_of_tracked_testimonials t tt] at b1
  refine ⟨by simp [Clock.armed, a1], ?_, by simp [Clock.armed, b1], ?_⟩
  · intro u hu
    rw [a1] at hu
    simp at hu
    rw [a2, hu]
  · intro u hu
    rw [b1] at hu
    simp at hu
    rw [b2, hu]

/-- Witness of `suspend_twice_then_resume`: both sliders right after
construction. -/
theorem suspend_twice_then_resume_witness :
    (heroFive.stopAutoplay.stopAutoplay.startAutoplay).env.armed = 1 ∧
    (heroFive.stopAutoplay.stopAutoplay.startAutoplay).Tracked ∧
    (testimonialsFive.stopAutoplay.stopAutoplay.startAutoplay).env.armed = 1 ∧
    (testimonialsFive.stopAutoplay.stopAutoplay.startAutoplay).Tracked :=
  suspend_twice_then_resume heroFive testimonialsFive
    (by decide) (by decide) (by decide) (by decide)

/-! ## The simulated clock -/

namespace HeroSliderManager

@[simp] theorem nextTimer_single (now nextId : Nat) (u : Timer) :
    Clock.nextTimer { now := now, nextId := nextId, timers := [u] } = some u := rfl

theorem nextTimer_of_single (c : Clock) (u : Timer) (h : c.timers = [u]) :
    c.nextTimer = some u := by
  unfold Clock.nextTimer
  rw [h]
  rfl

theorem nextTimer_of_nil (c : Clock) (h : c.timers = []) : c.nextTimer = none := by
  unfold Clock.nextTimer
  rw [h]
  rfl

/-- With no interval due by `target`, time passes and nothing else changes,
whatever the fuel. -/
theorem advanceClock_idle (target : Nat) (s : HeroSliderManager)
    (h : s.env.nextTimer = none ∨ ∃ u, s.env.nextTimer = some u ∧ target < u.due) :
    ∀ fuel, advanceClock target fuel s = some { s with env := s.env.moveTo target } := by
  intro fuel
  rcases h with h | ⟨u, h, hu⟩
  · cases fuel <;> simp [advanceClock, h]
  · have hn : ¬ u.due ≤ target := by omega
    cases fuel <;> simp [advanceClock, h, hn]

/-- A result reached with some fuel is reached with more fuel. -/
theorem advanceClock_succ (target : Nat) :
    ∀ (fuel : Nat) (s r : HeroSliderManager),
      advanceClock target fuel s = some r → advanceClock target (fuel + 1) s = some r := by
  intro fuel
  induction fuel with
  | zero =>
    intro s r h
    simp only [advanceClock] at h ⊢
    split at h
    · exact h
    · split at h
      · cases h
      · rename_i hn
        simp only [hn, if_false]
        exact h
  | succ n ih =>
    intro s r h
    rw [advanceClock] at h ⊢
    split at h
    · exact h
    · split at h
      · rename_i hd
        simp only [hd, if_true]
        exact ih _ _ h
      · rename_i hn
        simp only [hn, if_false]
        exact h

theorem advanceClock_add (target fuel : Nat) (s r : HeroSliderManager)
    (h : advanceClock target fuel s = some r) :
    ∀ more, advanceClock target (fuel + more) s = some r := by
  intro more
  induction more with
  | zero => exact h
  | succ n ih => exact advanceClock_succ target _ s r ih

end HeroSliderManager

namespace HeroSliderManager

/-- In a playing slider whose armed intervals are all the tracked one,
`restartAutoplay` leaves exactly one interval, new and due a full delay from
now. -/
theorem restartAutoplay_of_tracked (r : HeroSliderManager) (hp : r.isPlaying = true)
    (ht : r.Tracked) :
    restartAutoplay r =
      { r with
        env := { now := r.env.now, nextId := r.env.nextId + 1,
                 timers := [{ id := r.env.nextId, due := r.env.now + r.autoplayDelay,
                              delay := r.autoplayDelay }] }
        autoplayInterval := some r.env.nextId } := by
  have h0 := stopAutoplay_timers_of_tracked r ht
  unfold restartAutoplay startAutoplay
  simp only [stopAutoplay_isPlaying, hp, if_true, Clock.setInterval, h0, List.nil_append,
    stopAutoplay_autoplayDelay]
  unfold stopAutoplay
  split <;> rfl

/-- In a playing slider whose armed intervals are all the tracked one,
`goToSlide` to a valid index ends normally with exactly one interval armed, new
and due a full delay from now. -/
theorem goToSlide_playing (r : HeroSliderManager) (c k : Nat)
    (hp : r.isPlaying = true) (ht : r.Tracked) (hcur : r.currentSlide = .int (c : Int))
    (hc : c < r.slides.length) (hci : c < r.indicators.length)
    (hk : k < r.slides.length) (hki : k < r.indicators.length) :
    goToSlide r (.int (k : Int)) = .ok
      { moved r c k with
        env := { now := r.env.now, nextId := r.env.nextId + 1,
                 timers := [{ id := r.env.nextId, due := r.env.now + r.autoplayDelay,
                              delay := r.autoplayDelay }] }
        autoplayInterval := some r.env.nextId } := by
  rw [goToSlide_valid r c k hcur hc hci hk hki]
  simp only [hp, if_true]
  rw [restartAutoplay_of_tracked (moved r c k) hp ht]
  rfl

/-- A timer fire in a playing slider whose only armed interval is the tracked
one: the slider moves to the next slide and rearms one interval, due a full
delay after the fire. -/
theorem timerFire_of_single (r : HeroSliderManager) (u : Timer) (c : Nat)
    (hp : r.isPlaying = true) (ht : r.env.timers = [u]) (hh : r.autoplayInterval = some u.id)
    (hf : u.id < r.env.nextId) (hcur : r.currentSlide = .int (c : Int))
    (hc : c < r.slides.length) (hI : r.slides.length ≤ r.indicators.length) :
    (timerFire r).currentSlide = .int (((c + 1) % r.slides.length : Nat) : Int) ∧
    (timerFire r).env.timers
      = [{ id := r.env.nextId, due := max r.env.now u.due + r.autoplayDelay,
           delay := r.autoplayDelay }] ∧
    (timerFire r).env.now = max r.env.now u.due := by
  have hpos : 0 < r.slides.length := by omega
  have hm : (c + 1) % r.slides.length < r.slides.length := Nat.mod_lt _ hpos
  have hne : ¬ r.env.nextId = u.id := by omega
  have key : ∀ r1 : HeroSliderManager, r1 = { r with env := r.env.moveTo u.due } →
      (nextSlide r1).state = { moved r1 c ((c + 1) % r.slides.length) with
        env := { now := r1.env.now, nextId := r1.env.nextId + 1,
                 timers := [{ id := r1.env.nextId, due := r1.env.now + r1.autoplayDelay,
                              delay := r1.autoplayDelay }] }
        autoplayInterval := some r1.env.nextId } := by
    intro r1 h1
    have f1 : r1.slides = r.slides := by rw [h1]
    have f2 : r1.indicators = r.indicators := by rw [h1]
    have f3 : r1.currentSlide = .int (c : Int) := by rw [h1]; exact hcur
    have f4 : r1.isPlaying = true := by rw [h1]; exact hp
    have f5 : r1.Tracked := by
      intro t htm
      rw [h1] at htm ⊢
      simp only [Clock.moveTo, ht, List.mem_singleton] at htm
      simp only [hh, htm]
    rw [nextSlide_valid r1 c f3 (by rw [f1]; exact hpos), f1,
      goToSlide_playing r1 c _ f4 f5 f3 (by rw [f1]; exact hc) (by rw [f2]; omega)
        (by rw [f1]; exact hm) (by rw [f2]; omega)]
    rfl
  unfold timerFire
  rw [nextTimer_of_single _ _ ht]
  simp only []
  rw [key _ rfl]
  simp [moved, Clock.moveTo, Clock.reschedule, hne]

end HeroSliderManager

/-! ## Navigation restarts the countdown -/

/-- C7: in a hero slider with a valid current index, `goToSlide(i)` with a valid
`i` ends normally at index `i`. When `isPlaying` is true and the only armed
interval `t` is the one held in `autoplayInterval`, `t` is cleared and exactly
one new interval is armed, due `autoplayDelay` from now: no timer-driven advance
happens before `autoplayDelay` has elapsed, and when it has the slider moves to
index `(i + 1) % N`. When `isPlaying` is false the timers and the handle are
left as they were. -/
theorem goToSlide_restarts_countdown (s : HeroSliderManager) (c i : Nat)
    (hcur : s.currentSlide = .int (c : Int)) (hc : c < s.slides.length)
    (hi : i < s.slides.length) (hI : s.slides.length ≤ s.indicators.length)
    (hd : 0 < s.autoplayDelay) :
    (s.isPlaying = true →
      ∀ t : Timer, s.env.timers = [t] → s.autoplayInterval = some t.id → t.id < s.env.nextId →
      ∃ s1, s.goToSlide (.int (i : Int)) = .ok s1 ∧ s1.currentSlide = .int (i : Int) ∧
        t ∉ s1.env.timers ∧
        s1.env.timers = [{ id := s.env.nextId, due := s.env.now + s.autoplayDelay,
                           delay := s.autoplayDelay }] ∧
        s1.autoplayInterval = some s.env.nextId ∧
        (∀ fuel ms, ms < s.autoplayDelay →
          ∃ s2, s1.elapse fuel ms = some s2 ∧ s2.currentSlide = .int (i : Int)) ∧
        (∀ fuel, ∃ s2, s1.elapse (fuel + 1) s.autoplayDelay = some s2 ∧
          s2.currentSlide = .int (((i + 1) % s.slides.length : Nat) : Int))) ∧
    (s.isPlaying = false →
      ∃ s1, s.goToSlide (.int (i : Int)) = .ok s1 ∧ s1.currentSlide = .int (i : Int) ∧
        s1.env = s.env ∧ s1.autoplayInterval = s.autoplayInterval) := by
  constructor
  · intro hp t ht hh hf
    have htr : s.Tracked := by
      intro u hu
      rw [ht, List.mem_singleton] at hu
      rw [hh, hu]
    have e := HeroSliderManager.goToSlide_playing s c i hp htr hcur hc (by omega) hi (by omega)
    generalize hs1 : ({ HeroSliderManager.moved s c i with
        env := { now := s.env.now, nextId := s.env.nextId + 1,
                 timers := [{ id := s.env.nextId, due := s.env.now + s.autoplayDelay,
                              delay := s.autoplayDelay }] }
        autoplayInterval := some s.env.nextId } : HeroSliderManager) = s1 at e
    have g1 : s1.currentSlide = .int (i : Int) := by rw [← hs1]; rfl
    have g2 : s1.env.timers
        = [Timer.mk s.env.nextId (s.env.now + s.autoplayDelay) s.autoplayDelay] := by
      rw [← hs1]
    have g3 : s1.autoplayInterval = some s.env.nextId := by rw [← hs1]
    have g4 : s1.env.now = s.env.now := by rw [← hs1]
    have g5 : s1.env.nextId = s.env.nextId + 1 := by rw [← hs1]
    have g6 : s1.isPlaying = true := by rw [← hs1]; exact hp
    have g7 : s1.slides.length = s.slides.length := by
      rw [← hs1]; simp [HeroSliderManager.moved]
    have g8 : s1.indicators.length = s.indicators.length := by
      rw [← hs1]; simp [HeroSliderManager.moved]
    have g9 : s1.autoplayDelay = s.autoplayDelay := by rw [← hs1]; rfl
    have gn := HeroSliderManager.nextTimer_of_single s1.env _ g2
    refine ⟨s1, e, g1, ?_, g2, g3, ?_, ?_⟩
    · intro hm
      rw [g2, List.mem_singleton] at hm
      rw [hm] at hf
      exact Nat.lt_irrefl _ hf
    · intro fuel ms hms
      have idle := HeroSliderManager.advanceClock_idle (s1.env.now + ms) s1
        (Or.inr ⟨_, gn, by show s1.env.now + ms < s.env.now + s.autoplayDelay; omega⟩) fuel
      exact ⟨_, idle, g1⟩
    · intro fuel
      obtain ⟨f1, f2, f3⟩ := HeroSliderManager.timerFire_of_single s1 _ i g6 g2 g3
        (by rw [g5]; exact Nat.lt_succ_self _) g1 (by omega) (by omega)
      have idle := HeroSliderManager.advanceClock_idle (s1.env.now + s.autoplayDelay)
        (HeroSliderManager.timerFire s1)
        (Or.inr ⟨_, HeroSliderManager.nextTimer_of_single _ _ f2, by
          show s1.env.now + s.autoplayDelay
            < max s1.env.now (s.env.now + s.autoplayDelay) + s1.autoplayDelay
          have := Nat.le_max_right s1.env.now (s.env.now + s.autoplayDelay)
          omega⟩) fuel
      have el : s1.elapse (fuel + 1) s.autoplayDelay
          = HeroSliderManager.advanceClock (s1.env.now + s.autoplayDelay) fuel
              (HeroSliderManager.timerFire s1) := by
        unfold HeroSliderManager.elapse
        rw [HeroSliderManager.advanceClock, gn]
        have hdue : s.env.now + s.autoplayDelay ≤ s1.env.now + s.autoplayDelay := by omega
        simp only [hdue, if_true]
      rw [el, idle]
      exact ⟨_, rfl, by rw [← g7]; exact f1⟩
  · intro hp
    have e := HeroSliderManager.goToSlide_valid s c i hcur hc (by omega) hi (by omega)
    rw [hp] at e
    exact ⟨_, e, rfl, rfl, rfl⟩

/-- Witness of `goToSlide_restarts_countdown`: from the slider right after
construction, playing, and from the same slider paused. -/
theorem goToSlide_restarts_countdown_witness :
    (∃ s1, heroFive.goToSlide (.int 3) = .ok s1 ∧
      s1.env.timers = [{ id := 2, due := 5000, delay := 5000 }]) ∧
    (∃ s1, heroFive.toggleAutoplay.goToSlide (.int 3) = .ok s1 ∧
      s1.env = heroFive.toggleAutoplay.env) :=
  ⟨((goToSlide_restarts_countdown heroFive 0 3 rfl (by decide) (by decide) (by decide)
      (by decide)).1 (by decide) { id := 1, due := 5000, delay := 5000 } rfl rfl
      (by decide)).imp (fun _ h => ⟨h.1, h.2.2.2.1⟩),
   ((goToSlide_restarts_countdown heroFive.toggleAutoplay 0 3 rfl (by decide) (by decide)
      (by decide) (by decide)).2 (by decide)).imp (fun _ h => ⟨h.1, h.2.2.1⟩)⟩

/-! ## The scenario of the specification -/

/-- C8: five slides and five indicators, delay 5000 ms, index 0, autoplay on.
After 5000 ms the index is 1 and exactly one interval is armed (handle 2);
`goToSlide(3)` at that instant ends normally at index 3, clears interval 2 and
arms interval 3 alone, due at 10000 ms; after a further 5000 ms the index is 4.
This holds for every bound on the number of fires that allows one. -/
theorem scenario_five_slides (fuel : Nat) :
    heroFive.currentSlide = .int 0 ∧ heroFive.isPlaying = true ∧
    heroFive.autoplayDelay = 5000 ∧ heroFive.env.now = 0 ∧
    ∃ s1 s2 s3,
      heroFive.elapse (fuel + 1) 5000 = some s1 ∧
      s1.currentSlide = .int 1 ∧ s1.env.now = 5000 ∧
      s1.env.timers = [{ id := 2, due := 10000, delay := 5000 }] ∧
      s1.goToSlide (.int 3) = .ok s2 ∧
      s2.currentSlide = .int 3 ∧ s2.env.now = 5000 ∧
      s2.env.timers = [{ id := 3, due := 10000, delay := 5000 }] ∧
      s2.autoplayInterval = some 3 ∧
      s2.elapse (fuel + 1) 5000 = some s3 ∧
      s3.currentSlide = .int 4 ∧ s3.env.now = 10000 ∧ s3.env.armed = 1 := by
  refine ⟨rfl, rfl, rfl, rfl, ?_⟩
  have base : ∃ s1 s2 s3,
      HeroSliderManager.advanceClock 5000 1 heroFive = some s1 ∧
      s1.currentSlide = .int 1 ∧ s1.env.now = 5000 ∧
      s1.env.timers = [{ id := 2, due := 10000, delay := 5000 }] ∧
      s1.goToSlide (.int 3) = .ok s2 ∧
      s2.currentSlide = .int 3 ∧ s2.env.now = 5000 ∧
      s2.env.timers = [{ id := 3, due := 10000, delay := 5000 }] ∧
      s2.autoplayInterval = some 3 ∧
      HeroSliderManager.advanceClock 10000 1 s2 = some s3 ∧
      s3.currentSlide = .int 4 ∧ s3.env.now = 10000 ∧ s3.env.armed = 1 :=
    ⟨_, _, _, rfl, rfl, rfl, rfl, rfl, rfl, rfl, rfl, rfl, rfl, rfl, rfl, rfl⟩
  obtain ⟨s1, s2, s3, a1, a2, a3, a4, a5, a6, a7, a8, a9, a10, a11, a12, a13⟩ := base
  refine ⟨s1, s2, s3, ?_, a2, a3, a4, a5, a6, a7, a8, a9, ?_, a11, a12, a13⟩
  · have h := HeroSliderManager.advanceClock_add 5000 1 heroFive s1 a1 fuel
    rw [Nat.add_comm] at h
    exact h
  · have h := HeroSliderManager.advanceClock_add 10000 1 s2 s3 a10 fuel
    rw [Nat.add_comm] at h
    unfold HeroSliderManager.elapse
    rw [a7]
    exact h

/-! ## Pausing -/

/-- In a playing hero slider whose armed intervals are all the tracked one,
`toggleAutoplay` pauses: no interval stays armed, and the index never changes
while time passes. -/
theorem HeroSliderManager.pause_of_tracked (s : HeroSliderManager)
    (hp : s.isPlaying = true) (ht : s.Tracked) :
    s.toggleAutoplay.isPlaying = false ∧ s.toggleAutoplay.env.timers = [] ∧
    ∀ fuel target, ∃ s1, advanceClock target fuel s.toggleAutoplay = some s1 ∧
      s1.currentSlide = s.currentSlide := by
  have htr : Tracked { s with isPlaying := !s.isPlaying } := ht
  have h0 := stopAutoplay_timers_of_tracked _ htr
  have e1 : s.toggleAutoplay.isPlaying = false := by simp [toggleAutoplay, hp]
  have e2 : s.toggleAutoplay.env.timers = [] := by
    unfold toggleAutoplay
    rw [if_neg (by simp [hp])]
    exact h0
  have e3 : s.toggleAutoplay.currentSlide = s.currentSlide := by simp [toggleAutoplay, hp]
  refine ⟨e1, e2, fun fuel target => ?_⟩
  exact ⟨_, advanceClock_idle target _ (Or.inl (nextTimer_of_nil _ e2)) fuel, e3⟩

/-- C6, failing input: in the state reached from construction by `mouseenter`,
`nextSlide`, `mouseleave` (playing, index 1, intervals 2 and 3 armed),
`toggleAutoplay` sets `isPlaying` to false and clears interval 3 only; interval 2
stays armed and 5000 ms later moves the paused slider from index 1 to index 2. -/
theorem pause_leaves_leaked_interval_firing (fuel : Nat) :
    heroLeaked.isPlaying = true ∧ heroLeaked.currentSlide = .int 1 ∧
    heroLeaked.toggleAutoplay.isPlaying = false ∧
    heroLeaked.toggleAutoplay.autoplayInterval = none ∧
    heroLeaked.toggleAutoplay.currentSlide = .int 1 ∧
    heroLeaked.toggleAutoplay.env.timers = [{ id := 2, due := 5000, delay := 5000 }] ∧
    ∃ s1, heroLeaked.toggleAutoplay.elapse (fuel + 1) 5000 = some s1 ∧
      s1.isPlaying = false ∧ s1.currentSlide = .int 2 := by
  refine ⟨rfl, rfl, rfl, rfl, rfl, rfl, ?_⟩
  have base : ∃ s1, HeroSliderManager.advanceClock 5000 1 heroLeaked.toggleAutoplay = some s1 ∧
      s1.isPlaying = false ∧ s1.currentSlide = .int 2 := ⟨_, rfl, rfl, rfl⟩
  obtain ⟨s1, a1, a2, a3⟩ := base
  have h := HeroSliderManager.advanceClock_add 5000 1 _ s1 a1 fuel
  rw [Nat.add_comm] at h
  exact ⟨s1, h, a2, a3⟩

/-! ## Suspending, toggling and hovering -/

theorem HeroSliderManager.stopAutoplay_eq (s : HeroSliderManager) :
    s.stopAutoplay =
      { s with
        autoplayInterval := none
        env := { s.env with
          timers := s.env.timers.filter (fun t => decide (s.autoplayInterval ≠ some t.id)) } } := by
  obtain ⟨slides, indicators, icon, cur, playing, handle, delay, env⟩ := s
  obtain ⟨now, nextId, timers⟩ := env
  cases handle with
  | none => simp [stopAutoplay]
  | some id =>
    simp only [stopAutoplay, Clock.clearInterval]
    congr 2
    apply List.filter_congr
    intro t _
    by_cases h : t.id = id
    · simp [h]
    · have h2 : ¬ id = t.id := fun e => h e.symm
      simp [h, h2]

theorem HeroSliderManager.toggleAutoplay_isPlaying (r : HeroSliderManager) :
    r.toggleAutoplay.isPlaying = (!r.isPlaying) := by
  unfold HeroSliderManager.toggleAutoplay
  cases hp : r.isPlaying <;> simp

/-- C11: for every hero-slider state `stopAutoplay` only clears the interval
whose handle `autoplayInterval` holds and sets `autoplayInterval` to `null`; it
leaves `isPlaying` and the current slide index unchanged, and so do the
`mouseenter` listener (which calls it when `isPlaying` is true) and the
`visibilitychange` listener on a hidden page (which calls it always). -/
theorem suspend_keeps_flag_and_index (s : HeroSliderManager) :
    s.stopAutoplay =
      { s with
        autoplayInterval := none
        env := { s.env with
          timers := s.env.timers.filter (fun t => decide (s.autoplayInterval ≠ some t.id)) } } ∧
    s.stopAutoplay.isPlaying = s.isPlaying ∧
    s.stopAutoplay.currentSlide = s.currentSlide ∧
    s.step .visibilityHidden = s.stopAutoplay ∧
    s.step .mouseenter = (if s.isPlaying then s.stopAutoplay else s) ∧
    (s.step .mouseenter).isPlaying = s.isPlaying ∧
    (s.step .mouseenter).currentSlide = s.currentSlide := by
  refine ⟨HeroSliderManager.stopAutoplay_eq s, by simp, by simp, rfl, rfl, ?_, ?_⟩
  · simp only [HeroSliderManager.step, HeroSliderManager.onMouseEnter]
    split <;> simp
  · simp only [HeroSliderManager.step, HeroSliderManager.onMouseEnter]
    split <;> simp

/-- C12: for every hero-slider state `toggleAutoplay` negates `isPlaying` and
keeps the current slide index. When the new value is true it arms one more
interval, due `autoplayDelay` from now, and holds its handle; when the new value
is false it clears the interval whose handle `autoplayInterval` held and leaves
`autoplayInterval` null. Two toggles in a row restore `isPlaying`. -/
theorem toggleAutoplay_negates_isPlaying (s : HeroSliderManager) :
    s.toggleAutoplay.isPlaying = (!s.isPlaying) ∧
    s.toggleAutoplay.currentSlide = s.currentSlide ∧
    s.toggleAutoplay.autoplayInterval = (if s.isPlaying then none else some s.env.nextId) ∧
    s.toggleAutoplay.env.timers =
      (if s.isPlaying then
        s.env.timers.filter (fun t => decide (s.autoplayInterval ≠ some t.id))
      else
        s.env.timers ++ [Timer.mk s.env.nextId (s.env.now + s.autoplayDelay) s.autoplayDelay]) ∧
    s.toggleAutoplay.toggleAutoplay.isPlaying = s.isPlaying := by
  have h1 := HeroSliderManager.toggleAutoplay_isPlaying s
  refine ⟨h1, ?_, ?_, ?_, ?_⟩
  · unfold HeroSliderManager.toggleAutoplay
    cases hp : s.isPlaying <;> simp
  · unfold HeroSliderManager.toggleAutoplay
    cases hp : s.isPlaying
    · simp [HeroSliderManager.startAutoplay, Clock.setInterval]
    · simp
  · unfold HeroSliderManager.toggleAutoplay
    cases hp : s.isPlaying
    · simp [HeroSliderManager.startAutoplay, Clock.setInterval]
    · have e := HeroSliderManager.stopAutoplay_eq { s with isPlaying := false }
      simp only [Bool.not_true, Bool.false_eq_true, if_false, if_true]
      rw [e]
  · rw [HeroSliderManager.toggleAutoplay_isPlaying, h1, Bool.not_not]

/-- C13, as stated, fails: in no hero-slider state with `isPlaying` false does
the `mouseleave` listener change anything, so it never arms a timer while the
slider is paused. -/
theorem mouseleave_never_arms_while_paused :
    ¬ ∃ s : HeroSliderManager, s.isPlaying = false ∧ s.step .mouseleave ≠ s := by
  rintro ⟨s, hp, hne⟩
  apply hne
  simp [HeroSliderManager.step, HeroSliderManager.onMouseLeave, hp]

/-- C13 (amended): when the user pauses a playing hero slider with the play/pause
button, `isPlaying` becomes false, and no later sequence of `mouseenter` and
`mouseleave` events changes the state: `mouseleave` arms no timer and autoplay is
not resumed. If every interval armed before the pause was the tracked one, no
interval is armed afterwards. -/
theorem hover_after_pause_changes_nothing (s : HeroSliderManager) (es : List HeroEvent)
    (hp : s.isPlaying = true) (hes : ∀ e ∈ es, e = .mouseenter ∨ e = .mouseleave) :
    s.toggleAutoplay.isPlaying = false ∧
    s.toggleAutoplay.run es = s.toggleAutoplay ∧
    (s.Tracked → (s.toggleAutoplay.run es).env.timers = []) := by
  have h1 : s.toggleAutoplay.isPlaying = false := by
    rw [HeroSliderManager.toggleAutoplay_isPlaying, hp]
    rfl
  suffices key : s.toggleAutoplay.run es = s.toggleAutoplay from
    ⟨h1, key, fun ht => by rw [key]; exact (HeroSliderManager.pause_of_tracked s hp ht).2.1⟩
  generalize s.toggleAutoplay = r at h1
  induction es with
  | nil => rfl
  | cons e es ih =>
    have hstep : r.step e = r := by
      rcases hes e (List.mem_cons_self _ _) with h | h <;> rw [h]
      · simp [HeroSliderManager.step, HeroSliderManager.onMouseEnter, h1]
      · simp [HeroSliderManager.step, HeroSliderManager.onMouseLeave, h1]
    show HeroSliderManager.run (r.step e) es = r
    rw [hstep]
    exact ih (fun e1 h => hes e1 (List.mem_cons_of_mem _ h))

/-- Witness of `hover_after_pause_changes_nothing`: the slider right after
construction, paused, then hovered and left. -/
theorem hover_after_pause_changes_nothing_witness :
    heroFive.toggleAutoplay.isPlaying = false ∧
    heroFive.toggleAutoplay.run [.mouseenter, .mouseleave] = heroFive.toggleAutoplay ∧
    (heroFive.Tracked →
      (heroFive.toggleAutoplay.run [.mouseenter, .mouseleave]).env.timers = []) :=
  hover_after_pause_changes_nothing heroFive [.mouseenter, .mouseleave] (by decide)
    (by decide)

/-! ## Exactly one active slide -/

theorem ExactlyActive.lt_length {xs : List Bool} {c : Nat} (h : ExactlyActive xs c) :
    c < xs.length := by
  have e := (h c).mpr rfl
  by_contra hn
  rw [List.getElem?_eq_none (by omega)] at e
  cases e

theorem ExactlyActive.move {xs : List Bool} {c : Nat} (h : ExactlyActive xs c) (k : Nat)
    (hk : k < xs.length) : ExactlyActive ((xs.set c false).set k true) k := by
  intro j
  rw [List.getElem?_set]
  by_cases e : k = j
  · subst e
    simp [hk]
  · rw [if_neg e, List.getElem?_set]
    by_cases e2 : c = j
    · subst e2
      have : ¬ c = k := fun x => e x.symm
      rw [if_pos rfl]
      split <;> simp [this]
    · rw [if_neg e2, h j]
      constructor
      · intro x; exact absurd x.symm e2
      · intro x; exact absurd x.symm e

theorem exactlyActive_rendered (n : Nat) (hn : 0 < n) :
    ExactlyActive ((List.range n).map (fun index => index == 0)) 0 := by
  intro j
  by_cases hj : j < n
  · simp [List.getElem?_map, List.getElem?_range hj]
  · rw [List.getElem?_eq_none (by simp; omega)]
    constructor
    · intro x; cases x
    · intro x; omega

namespace TestimonialsManager

theorem oneActive_of_same {t t1 : TestimonialsManager} (h : t.OneActive)
    (e1 : t1.slider = t.slider) (e2 : t1.testimonials = t.testimonials)
    (e3 : t1.currentTestimonial = t.currentTestimonial) : t1.OneActive := by
  obtain ⟨items, c, hs, hl, hc, ha⟩ := h
  exact ⟨items, c, by rw [e1, hs], by rw [e2, hl], by rw [e3, hc], ha⟩

theorem oneActive_goTo {t : TestimonialsManager} (h : t.OneActive) (k : Nat)
    (hk : k < t.testimonials.length) :
    (goToTestimonial t (.int (k : Int))).isOk = true ∧
    (goToTestimonial t (.int (k : Int))).state.OneActive ∧
    (goToTestimonial t (.int (k : Int))).state.testimonials = t.testimonials ∧
    (goToTestimonial t (.int (k : Int))).state.currentTestimonial = .int (k : Int) := by
  obtain ⟨items, c, hs, hl, hc, ha⟩ := h
  have hk2 : k < items.length := by omega
  rw [goToTestimonial_valid t items c k hs hc ha.lt_length hk2]
  refine ⟨rfl, ⟨_, k, rfl, ?_, rfl, ha.move k hk2⟩, rfl, rfl⟩
  simp only [moved, List.length_set]
  exact hl

theorem oneActive_next {t : TestimonialsManager} (h : t.OneActive) :
    (nextTestimonial t).isOk = true ∧ (nextTestimonial t).state.OneActive ∧
    (nextTestimonial t).state.testimonials = t.testimonials := by
  obtain ⟨items, c, hs, hl, hc, ha⟩ := h
  have hpos : 0 < t.testimonials.length := by have := ha.lt_length; omega
  rw [nextTestimonial_valid t c hc hpos]
  have g := oneActive_goTo (t := t) ⟨items, c, hs, hl, hc, ha⟩ _ (Nat.mod_lt (c + 1) hpos)
  exact ⟨g.1, g.2.1, g.2.2.1⟩

theorem oneActive_previous {t : TestimonialsManager} (h : t.OneActive) :
    (previousTestimonial t).isOk = true ∧ (previousTestimonial t).state.OneActive ∧
    (previousTestimonial t).state.testimonials = t.testimonials := by
  obtain ⟨items, c, hs, hl, hc, ha⟩ := h
  have hpos : 0 < t.testimonials.length := by have := ha.lt_length; omega
  rw [previousTestimonial_valid t c hc hpos]
  have g := oneActive_goTo (t := t) ⟨items, c, hs, hl, hc, ha⟩ _
    (Nat.mod_lt (c + t.testimonials.length - 1) hpos)
  exact ⟨g.1, g.2.1, g.2.2.1⟩

theorem oneActive_restart_after {t : TestimonialsManager} (o : Outcome TestimonialsManager)
    (h : o.state.OneActive ∧ o.state.testimonials = t.testimonials) :
    (match o with
      | .ok s1 => Outcome.ok (restartAutoplay s1)
      | .typeError s1 => Outcome.typeError s1).state.OneActive ∧
    (match o with
      | .ok s1 => Outcome.ok (restartAutoplay s1)
      | .typeError s1 => Outcome.typeError s1).state.testimonials = t.testimonials := by
  cases o with
  | ok s1 =>
    refine ⟨oneActive_of_same h.1 ?_ ?_ ?_, ?_⟩ <;> simp [Outcome.state, restartAutoplay]
    exact h.2
  | typeError s1 => exact h

theorem oneActive_step {t : TestimonialsManager} (h : t.OneActive) (e : TestimonialEvent)
    (he : ∀ k, e = .goToTestimonial k → k < t.testimonials.length) :
    (step t e).OneActive ∧ (step t e).testimonials = t.testimonials := by
  cases e with
  | prevClick => exact oneActive_restart_after _ ⟨(oneActive_previous h).2.1, (oneActive_previous h).2.2⟩
  | nextClick => exact oneActive_restart_after _ ⟨(oneActive_next h).2.1, (oneActive_next h).2.2⟩
  | arrowLeft => exact oneActive_restart_after _ ⟨(oneActive_previous h).2.1, (oneActive_previous h).2.2⟩
  | arrowRight => exact oneActive_restart_after _ ⟨(oneActive_next h).2.1, (oneActive_next h).2.2⟩
  | mouseenter =>
    refine ⟨oneActive_of_same h ?_ ?_ ?_, ?_⟩ <;> simp [TestimonialsManager.step, onMouseEnter]
  | mouseleave =>
    have e1 : (onMouseLeave t).slider = t.slider := by
      unfold onMouseLeave; split <;> simp
    have e2 : (onMouseLeave t).testimonials = t.testimonials := by
      unfold onMouseLeave; split <;> simp
    have e3 : (onMouseLeave t).currentTestimonial = t.currentTestimonial := by
      unfold onMouseLeave; split <;> simp
    exact ⟨oneActive_of_same h e1 e2 e3, e2⟩
  | timerFire =>
    show (timerFire t).OneActive ∧ (timerFire t).testimonials = t.testimonials
    unfold timerFire
    split
    · exact ⟨h, rfl⟩
    · rename_i u _
      have h1 : OneActive { t with env := t.env.moveTo u.due } := oneActive_of_same h rfl rfl rfl
      exact ⟨oneActive_of_same (oneActive_next h1).2.1 rfl rfl rfl, (oneActive_next h1).2.2⟩
  | nextTestimonial => exact ⟨(oneActive_next h).2.1, (oneActive_next h).2.2⟩
  | previousTestimonial => exact ⟨(oneActive_previous h).2.1, (oneActive_previous h).2.2⟩
  | goToTestimonial k =>
    have g := oneActive_goTo h k (he k rfl)
    exact ⟨g.2.1, g.2.2.1⟩

theorem oneActive_run (es : List TestimonialEvent) :
    ∀ t : TestimonialsManager, t.OneActive →
      (∀ e ∈ es, ∀ k, e = .goToTestimonial k → k < t.testimonials.length) →
      (run t es).OneActive ∧ (run t es).testimonials = t.testimonials := by
  induction es with
  | nil => intro t h _; exact ⟨h, rfl⟩
  | cons e es ih =>
    intro t h he
    obtain ⟨a, b⟩ := oneActive_step h e (he e (List.mem_cons_self _ _))
    obtain ⟨c, d⟩ := ih (TestimonialsManager.step t e) a (fun e1 h1 k hk => by
      rw [b]; exact he e1 (List.mem_cons_of_mem _ h1) k hk)
    exact ⟨c, d.trans b⟩

end TestimonialsManager

/-- C14: in the testimonials slider, after `renderTestimonials` over at least one
testimonial (slider element present, current index 0) and any sequence of
events and of calls of `nextTestimonial`, `previousTestimonial` and
`goToTestimonial(i)` with `i < N`, the slider holds `N` items, exactly one of
them carries the class `active`, and it is the item at `currentTestimonial`. In
the hero slider, if exactly the slide and the indicator at `currentSlide` are
active, `goToSlide(i)` with a valid `i` (equal to the current index or not) ends
normally with exactly the slide and the indicator at the new `currentSlide = i`
active. -/
theorem exactly_one_active (t : TestimonialsManager) (before : List Bool)
    (es : List TestimonialEvent) (h : HeroSliderManager) (c i : Nat)
    (ts : t.slider = some before) (tc : t.currentTestimonial = .int 0)
    (tn : t.testimonials ≠ [])
    (hes : ∀ e ∈ es, ∀ k, e = .goToTestimonial k → k < t.testimonials.length)
    (hcur : h.currentSlide = .int (c : Int))
    (hs : ExactlyActive h.slides c) (hi : ExactlyActive h.indicators c)
    (his : i < h.slides.length) (hii : i < h.indicators.length) :
    (∃ (items : List Bool) (d : Nat),
      (t.renderTestimonials.run es).slider = some items ∧
      items.length = t.testimonials.length ∧
      (t.renderTestimonials.run es).currentTestimonial = .int (d : Int) ∧
      ExactlyActive items d) ∧
    (∃ h1, h.goToSlide (.int (i : Int)) = .ok h1 ∧ h1.currentSlide = .int (i : Int) ∧
      ExactlyActive h1.slides i ∧ ExactlyActive h1.indicators i) := by
  constructor
  · have hpos : 0 < t.testimonials.length := List.length_pos.mpr tn
    have r0 : t.renderTestimonials.OneActive := by
      refine ⟨_, 0, ?_, ?_, ?_, exactlyActive_rendered _ hpos⟩
      · simp [TestimonialsManager.renderTestimonials, ts]
      · simp [TestimonialsManager.renderTestimonials, ts]
      · simp [TestimonialsManager.renderTestimonials, ts, tc]
    have e0 : t.renderTestimonials.testimonials = t.testimonials := by
      simp [TestimonialsManager.renderTestimonials, ts]
    obtain ⟨⟨items, d, a1, a2, a3, a4⟩, b⟩ :=
      TestimonialsManager.oneActive_run es _ r0 (by rw [e0]; exact hes)
    exact ⟨items, d, a1, by rw [a2, b, e0], a3, a4⟩
  · have e := HeroSliderManager.goToSlide_valid h c i hcur hs.lt_length hi.lt_length his hii
    refine ⟨_, e, ?_, ?_, ?_⟩
    · split <;> simp [HeroSliderManager.moved]
    · have m := hs.move i his
      split <;> simpa [HeroSliderManager.moved] using m
    · have m := hi.move i hii
      split <;> simpa [HeroSliderManager.moved] using m

/-- Witness of `exactly_one_active`: the testimonials of the source, moved around,
and the hero slider over five slides sent to the slide it already shows. -/
theorem exactly_one_active_witness :
    (∃ (items : List Bool) (d : Nat),
      (testimonialsBlank.renderTestimonials.run
        [.previousTestimonial, .goToTestimonial 2, .nextClick]).slider = some items ∧
      items.length = testimonialsBlank.testimonials.length ∧
      (testimonialsBlank.renderTestimonials.run
        [.previousTestimonial, .goToTestimonial 2, .nextClick]).currentTestimonial
        = .int (d : Int) ∧
      ExactlyActive items d) ∧
    (∃ h1, heroFive.goToSlide (.int ((0 : Nat) : Int)) = .ok h1 ∧
      h1.currentSlide = .int ((0 : Nat) : Int) ∧
      ExactlyActive h1.slides 0 ∧ ExactlyActive h1.indicators 0) :=
  exactly_one_active testimonialsBlank [] [.previousTestimonial, .goToTestimonial 2, .nextClick]
    heroFive 0 0 rfl rfl (by decide)
    (by
      intro e he k hk
      simp only [List.mem_cons, List.mem_singleton, List.mem_nil_iff, or_false] at he
      rcases he with r | r | r <;> subst r <;> cases hk
      decide)
    rfl
    (exactlyActive_rendered 5 (by decide)) (exactlyActive_rendered 5 (by decide))
    (by decide) (by decide)

/-! ## A full cycle of the slider -/

theorem mod_of_lt_two_mul (x N : Nat) (h : x < 2 * N) :
    x % N = if x < N then x else x - N := by
  split
  · rename_i hx
    exact Nat.mod_eq_of_lt hx
  · rename_i hx
    rw [Nat.mod_eq_sub_mod (by omega)]
    exact Nat.mod_eq_of_lt (by omega)

theorem backward_index (N i k : Nat) (hk : k ≤ N) :
    (i + k * (N - 1)) % N = (i + (N - k)) % N := by
  rcases Nat.eq_zero_or_pos N with h0 | hpos
  · subst h0
    have : k = 0 := by omega
    subst this
    simp
  · obtain ⟨m, rfl⟩ : ∃ m, N = m + 1 := ⟨N - 1, by omega⟩
    have e1 : i + k * (m + 1 - 1) + k = i + (m + 1) * k := by
      simp only [Nat.add_sub_cancel]
      ring
    have e2 : i + (m + 1 - k) + k = i + (m + 1) := by omega
    have h1 : (i + k * (m + 1 - 1) + k) % (m + 1) = (i + (m + 1 - k) + k) % (m + 1) := by
      rw [e1, e2, Nat.add_mul_mod_self_left, Nat.add_mod_right]
    exact Nat.ModEq.add_right_cancel' k h1

theorem visit_forward (N i j : Nat) (hi : i < N) (hj : j < N) :
    ∃! k, 1 ≤ k ∧ k ≤ N ∧ (i + k) % N = j := by
  refine ⟨if i < j then j - i else j + N - i, ?_, ?_⟩
  · show 1 ≤ _ ∧ _ ≤ N ∧ _ = j
    by_cases h : i < j
    · simp only [h, if_true]
      rw [mod_of_lt_two_mul _ _ (by omega)]
      split <;> omega
    · simp only [h, if_false]
      rw [mod_of_lt_two_mul _ _ (by omega)]
      split <;> omega
  · rintro k ⟨h1, h2, h3⟩
    rw [mod_of_lt_two_mul _ _ (by omega)] at h3
    split at h3 <;> split <;> omega

theorem visit_backward (N i j : Nat) (hi : i < N) (hj : j < N) :
    ∃! k, 1 ≤ k ∧ k ≤ N ∧ (i + k * (N - 1)) % N = j := by
  refine ⟨if j < i then i - j else i + N - j, ?_, ?_⟩
  · show 1 ≤ _ ∧ _ ≤ N ∧ _ = j
    by_cases h : j < i
    · simp only [h, if_true]
      rw [backward_index _ _ _ (by omega), mod_of_lt_two_mul _ _ (by omega)]
      split <;> omega
    · simp only [h, if_false]
      rw [backward_index _ _ _ (by omega), mod_of_lt_two_mul _ _ (by omega)]
      split <;> omega
  · rintro k ⟨h1, h2, h3⟩
    rw [backward_index _ _ _ h2, mod_of_lt_two_mul _ _ (by omega)] at h3
    split at h3 <;> split <;> omega

namespace HeroSliderManager

theorem nextSlide_times (N : Nat) (k : Nat) :
    ∀ (s : HeroSliderManager) (i : Nat), s.slides.length = N → N ≤ s.indicators.length →
      s.currentSlide = .int (i : Int) → i < N →
      (run s (List.replicate k .nextSlide)).currentSlide = .int (((i + k) % N : Nat) : Int) := by
  induction k with
  | zero =>
    intro s i _ _ hcur hi
    rw [Nat.add_zero, Nat.mod_eq_of_lt hi]
    exact hcur
  | succ k ih =>
    intro s i hN hI hcur hi
    have hpos : 0 < s.slides.length := by omega
    obtain ⟨s1, e1, c1, l1, m1, _⟩ := goToSlide_ok s i ((i + 1) % s.slides.length) hcur
      (by omega) (by omega) (Nat.mod_lt _ hpos) (by have := Nat.mod_lt (i + 1) hpos; omega)
    rw [← nextSlide_valid s i hcur hpos] at e1
    have hs : step s .nextSlide = s1 := by simp [step, e1, Outcome.state]
    show (run (step s .nextSlide) (List.replicate k .nextSlide)).currentSlide = _
    rw [hs, ih s1 _ (by omega) (by omega) c1 (by rw [hN]; exact Nat.mod_lt _ (by omega)), hN,
      Nat.mod_add_mod]
    congr 3
    omega

theorem previousSlide_times (N : Nat) (k : Nat) :
    ∀ (s : HeroSliderManager) (i : Nat), s.slides.length = N → N ≤ s.indicators.length →
      s.currentSlide = .int (i : Int) → i < N →
      (run s (List.replicate k .previousSlide)).currentSlide
        = .int (((i + k * (N - 1)) % N : Nat) : Int) := by
  induction k with
  | zero =>
    intro s i _ _ hcur hi
    rw [Nat.zero_mul, Nat.add_zero, Nat.mod_eq_of_lt hi]
    exact hcur
  | succ k ih =>
    intro s i hN hI hcur hi
    have hpos : 0 < s.slides.length := by omega
    obtain ⟨s1, e1, c1, l1, m1, _⟩ := goToSlide_ok s i
      ((i + s.slides.length - 1) % s.slides.length) hcur
      (by omega) (by omega) (Nat.mod_lt _ hpos)
      (by have := Nat.mod_lt (i + s.slides.length - 1) hpos; omega)
    rw [← previousSlide_valid s i hcur hpos] at e1
    have hs : step s .previousSlide = s1 := by simp [step, e1, Outcome.state]
    show (run (step s .previousSlide) (List.replicate k .previousSlide)).currentSlide = _
    rw [hs, ih s1 _ (by omega) (by omega) c1 (by rw [hN]; exact Nat.mod_lt _ (by omega)), hN,
      Nat.mod_add_mod, Nat.succ_mul]
    congr 3
    omega

end HeroSliderManager

namespace TestimonialsManager

theorem nextTestimonial_times (N : Nat) (k : Nat) :
    ∀ (t : TestimonialsManager) (items : List Bool) (i : Nat), t.slider = some items →
      items.length = N → t.testimonials.length = N →
      t.currentTestimonial = .int (i : Int) → i < N →
      (run t (List.replicate k .nextTestimonial)).currentTestimonial
        = .int (((i + k) % N : Nat) : Int) := by
  induction k with
  | zero =>
    intro t items i _ _ _ hcur hi
    rw [Nat.add_zero, Nat.mod_eq_of_lt hi]
    exact hcur
  | succ k ih =>
    intro t items i hs hl hN hcur hi
    have hpos : 0 < t.testimonials.length := by omega
    obtain ⟨t1, items1, e1, c1, s1, l1, d1⟩ := goToTestimonial_ok t items i
      ((i + 1) % t.testimonials.length) hs hcur (by omega)
      (by have := Nat.mod_lt (i + 1) hpos; omega)
    rw [← nextTestimonial_valid t i hcur hpos] at e1
    have hst : step t .nextTestimonial = t1 := by simp [step, e1, Outcome.state]
    show (run (step t .nextTestimonial) (List.replicate k .nextTestimonial)).currentTestimonial
      = _
    rw [hst, ih t1 items1 _ s1 (by omega) (by rw [d1]; exact hN) c1
      (by rw [hN]; exact Nat.mod_lt _ (by omega)), hN, Nat.mod_add_mod]
    congr 3
    omega

theorem previousTestimonial_times (N : Nat) (k : Nat) :
    ∀ (t : TestimonialsManager) (items : List Bool) (i : Nat), t.slider = some items →
      items.length = N → t.testimonials.length = N →
      t.currentTestimonial = .int (i : Int) → i < N →
      (run t (List.replicate k .previousTestimonial)).currentTestimonial
        = .int (((i + k * (N - 1)) % N : Nat) : Int) := by
  induction k with
  | zero =>
    intro t items i _ _ _ hcur hi
    rw [Nat.zero_mul, Nat.add_zero, Nat.mod_eq_of_lt hi]
    exact hcur
  | succ k ih =>
    intro t items i hs hl hN hcur hi
    have hpos : 0 < t.testimonials.length := by omega
    obtain ⟨t1, items1, e1, c1, s1, l1, d1⟩ := goToTestimonial_ok t items i
      ((i + t.testimonials.length - 1) % t.testimonials.length) hs hcur (by omega)
      (by have := Nat.mod_lt (i + t.testimonials.length - 1) hpos; omega)
    rw [← previousTestimonial_valid t i hcur hpos] at e1
    have hst : step t .previousTestimonial = t1 := by simp [step, e1, Outcome.state]
    show (run (step t .previousTestimonial)
      (List.replicate k .previousTestimonial)).currentTestimonial = _
    rw [hst, ih t1 items1 _ s1 (by omega) (by rw [d1]; exact hN) c1
      (by rw [hN]; exact Nat.mod_lt _ (by omega)), hN, Nat.mod_add_mod, Nat.succ_mul]
    congr 3
    omega

end TestimonialsManager

/-- C19: with `N ≥ 1` slides (and at least `N` indicators for the hero slider;
for the testimonials, the `N` items that `renderTestimonials` wrote), from every
index `i` of `[0, N)`, `N` calls of `nextSlide` in a row return the current
index to `i`, and every index `j` of `[0, N)` is the current index after exactly
one number `k` of calls with `1 ≤ k ≤ N`; the same holds for `previousSlide`,
`nextTestimonial` and `previousTestimonial`. -/
theorem full_cycle_visits_every_index (h : HeroSliderManager) (t : TestimonialsManager)
    (items : List Bool) (N i : Nat)
    (hN : h.slides.length = N) (hI : N ≤ h.indicators.length)
    (hcur : h.currentSlide = .int (i : Int))
    (tS : t.slider = some items) (tN : items.length = N) (tL : t.testimonials.length = N)
    (tcur : t.currentTestimonial = .int (i : Int)) (hi : i < N) :
    ((h.run (List.replicate N .nextSlide)).currentSlide = .int (i : Int) ∧
      ∀ j, j < N → ∃! k, 1 ≤ k ∧ k ≤ N ∧
        (h.run (List.replicate k .nextSlide)).currentSlide = .int (j : Int)) ∧
    ((h.run (List.replicate N .previousSlide)).currentSlide = .int (i : Int) ∧
      ∀ j, j < N → ∃! k, 1 ≤ k ∧ k ≤ N ∧
        (h.run (List.replicate k .previousSlide)).currentSlide = .int (j : Int)) ∧
    ((t.run (List.replicate N .nextTestimonial)).currentTestimonial = .int (i : Int) ∧
      ∀ j, j < N → ∃! k, 1 ≤ k ∧ k ≤ N ∧
        (t.run (List.replicate k .nextTestimonial)).currentTestimonial = .int (j : Int)) ∧
    ((t.run (List.replicate N .previousTestimonial)).currentTestimonial = .int (i : Int) ∧
      ∀ j, j < N → ∃! k, 1 ≤ k ∧ k ≤ N ∧
        (t.run (List.replicate k .previousTestimonial)).currentTestimonial
          = .int (j : Int)) := by
  have a1 := fun k => HeroSliderManager.nextSlide_times N k h i hN hI hcur hi
  have a2 := fun k => HeroSliderManager.previousSlide_times N k h i hN hI hcur hi
  have a3 := fun k => TestimonialsManager.nextTestimonial_times N k t items i tS tN tL tcur hi
  have a4 := fun k =>
    TestimonialsManager.previousTestimonial_times N k t items i tS tN tL tcur hi
  have fwd : (i + N) % N = i := by rw [Nat.add_mod_right, Nat.mod_eq_of_lt hi]
  have bwd : (i + N * (N - 1)) % N = i := by
    rw [Nat.add_mul_mod_self_left, Nat.mod_eq_of_lt hi]
  refine ⟨⟨?_, ?_⟩, ⟨?_, ?_⟩, ⟨?_, ?_⟩, ⟨?_, ?_⟩⟩
  · rw [a1, fwd]
  · intro j hj
    simp only [a1, JsNum.int.injEq, Nat.cast_inj]
    exact visit_forward N i j hi hj
  · rw [a2, bwd]
  · intro j hj
    simp only [a2, JsNum.int.injEq, Nat.cast_inj]
    exact visit_backward N i j hi hj
  · rw [a3, fwd]
  · intro j hj
    simp only [a3, JsNum.int.injEq, Nat.cast_inj]
    exact visit_forward N i j hi hj
  · rw [a4, bwd]
  · intro j hj
    simp only [a4, JsNum.int.injEq, Nat.cast_inj]
    exact visit_backward N i j hi hj

/-- Witness of `full_cycle_visits_every_index`: both sliders over five slides,
from index 0. -/
theorem full_cycle_visits_every_index_witness :
    (heroFive.run (List.replicate 5 .nextSlide)).currentSlide = .int ((0 : Nat) : Int) ∧
    (heroFive.run (List.replicate 5 .previousSlide)).currentSlide = .int ((0 : Nat) : Int) ∧
    (testimonialsFive.run (List.replicate 5 .nextTestimonial)).currentTestimonial
      = .int ((0 : Nat) : Int) ∧
    (testimonialsFive.run (List.replicate 5 .previousTestimonial)).currentTestimonial
      = .int ((0 : Nat) : Int) :=
  have w := full_cycle_visits_every_index heroFive testimonialsFive
    [true, false, false, false, false] 5 0
    (by decide) (by decide) (by decide) (by decide) (by decide) (by decide) (by decide)
    (by decide)
  ⟨w.1.1, w.2.1.1, w.2.2.1.1, w.2.2.2.1⟩

/-! ## Validation of one field -/

theorem getElementById_setErrorElement (page : List ErrorElement) (id text display : String) :
    getElementById (setErrorElement page id text display) id
      = (getElementById page id).map
          (fun e => { e with textContent := text, display := display }) := by
  induction page with
  | nil => rfl
  | cons e rest ih =>
    unfold setErrorElement
    by_cases h : (e.id == id) = true
    · simp [getElementById, List.find?_cons, h]
    · have h2 : (e.id == id) = false := by simpa using h
      rw [h2]
      simp only [Bool.false_eq_true, if_false, getElementById, List.find?_cons, h2] at ih ⊢
      exact ih

theorem getElementById_shown (page : List ErrorElement) (id message : String) :
    getElementById (setErrorElement (setErrorElement page id "" "none") id message "block") id
      = (getElementById page id).map
          (fun e => { e with textContent := message, display := "block" }) := by
  rw [getElementById_setErrorElement, getElementById_setErrorElement, Option.map_map]
  rfl

theorem JsString.trim_eq_nil (v : JsString) (h : ∀ c ∈ v, JsString.isWhiteSpace c = true) :
    JsString.trim v = [] := by
  unfold JsString.trim
  rw [List.dropWhile_eq_nil_iff.mpr h]
  rfl

theorem JsString.mem_of_mem_trim (v : JsString) (c : Nat) (h : c ∈ JsString.trim v) :
    c ∈ v := by
  unfold JsString.trim at h
  rw [List.mem_reverse] at h
  have h1 := (List.dropWhile_sublist JsString.isWhiteSpace).subset h
  rw [List.mem_reverse] at h1
  exact (List.dropWhile_sublist JsString.isWhiteSpace).subset h1

theorem validationRules_message :
    validationRules "message" = some
      { required := true, minLength := some 10, maxLength := some 1000, pattern := none,
        message := some "Message must be between 10 and 1000 characters" } := rfl

theorem validationRules_name :
    validationRules "name" = some
      { required := true, minLength := some 2, maxLength := none, pattern := some namePattern,
        message := some "Please enter a valid name (letters and spaces only)" } := rfl

/-- C15: for a field named `message` with any value, `validateField` returns true
exactly when the length of the trimmed value is between 10 and 1000 inclusive.
In every other case it returns false, sets the border of the field to the error
colour, and writes its message (required, at least 10, less than 1000) in the
element `message-error`, if the page has one, and displays it. -/
theorem message_field_valid_iff (field : FormField) (page : List ErrorElement)
    (hn : field.name = "message") :
    ((validateField field page).valid = true ↔
      10 ≤ (JsString.trim field.value).length ∧ (JsString.trim field.value).length ≤ 1000) ∧
    ((validateField field page).valid = false →
      (validateField field page).field.borderColor = "var(--destructive)" ∧
      getElementById (validateField field page).page "message-error"
        = (getElementById page "message-error").map (fun e =>
            { e with
              textContent :=
                if (JsString.trim field.value).isEmpty then "Message is required"
                else if (JsString.trim field.value).length < 10 then
                  "Message must be at least 10 characters"
                else "Message must be less than 1000 characters"
              display := "block" })) := by
  have m1 : capitalizeFirst "message" ++ " is required" = "Message is required" := by decide
  have m2 : capitalizeFirst "message" ++ " must be at least " ++ toString 10 ++ " characters"
      = "Message must be at least 10 characters" := by decide
  have m3 : capitalizeFirst "message" ++ " must be less than " ++ toString 1000 ++ " characters"
      = "Message must be less than 1000 characters" := by decide
  have id1 : "message" ++ "-error" = "message-error" := by decide
  unfold validateField
  simp only [hn, validationRules_message, tooShort, tooLong, patternFails, showFieldError,
    clearFieldError, Option.getD_some, m1, m2, m3, id1]
  generalize JsString.trim field.value = w
  have he : w.isEmpty = decide (w.length = 0) := by cases w <;> simp
  rw [he]
  generalize w.length = n
  by_cases h0 : n = 0
  · subst h0
    simp [getElementById_shown]
  · by_cases h1 : n < 10
    · simp [h0, h1, getElementById_shown]
    · by_cases h2 : n > 1000
      · simp [h0, h1, h2, getElementById_shown]
      · simp [h0, h1, h2]
        omega

/-- Witness of `message_field_valid_iff`: a message of twelve characters. -/
theorem message_field_valid_iff_witness :
    (validateField sampleMessage samplePage).valid = true :=
  (message_field_valid_iff sampleMessage samplePage rfl).1.mpr (by decide)

/-- The four outcomes of `validateField` on a field named `name`. -/
theorem validateField_name (field : FormField) (page : List ErrorElement)
    (hn : field.name = "name") :
    validateField field page =
      if (JsString.trim field.value).isEmpty then
        { valid := false, field := { field with borderColor := "var(--destructive)" },
          page := shownError page "name" "Name is required" }
      else if (JsString.trim field.value).length < 2 then
        { valid := false, field := { field with borderColor := "var(--destructive)" },
          page := shownError page "name" "Name must be at least 2 characters" }
      else if !namePattern (JsString.trim field.value) then
        { valid := false, field := { field with borderColor := "var(--destructive)" },
          page := shownError page "name"
            "Please enter a valid name (letters and spaces only)" }
      else
        { valid := true, field := { field with borderColor := "var(--border)" },
          page := setErrorElement page "name-error" "" "none" } := by
  have m1 : capitalizeFirst "name" ++ " is required" = "Name is required" := by decide
  have m2 : capitalizeFirst "name" ++ " must be at least " ++ toString 2 ++ " characters"
      = "Name must be at least 2 characters" := by decide
  have id1 : "name" ++ "-error" = "name-error" := by decide
  unfold validateField
  simp only [hn, validationRules_name, tooShort, tooLong, patternFails, showFieldError,
    clearFieldError, Option.getD_some, m1, m2, id1, shownError]
  generalize JsString.trim field.value = w
  cases w with
  | nil => simp
  | cons c w =>
    by_cases h1 : (c :: w).length < 2
    · simp [h1]
    · by_cases h2 : namePattern (c :: w) = true
      · simp [h1, h2]
      · simp [h1, h2]

theorem namePattern_iff (w : JsString) :
    namePattern w = true ↔
      w ≠ [] ∧ ∀ c ∈ w, JsString.isLetter c = true ∨ JsString.isWhiteSpace c = true := by
  cases w <;> simp [namePattern]

/-- What the code does on the name field: for a field named `name` with any
value, `validateField` returns true exactly when the trimmed value has at least 2
characters, each of them a letter of `a-z`, `A-Z` or a white-space character
(the class `\s` of the pattern, which holds the tab and the line terminators
besides the space). An
empty value, or one of white space only, is rejected: the border of the field
takes the error colour and the element `name-error`, if the page has one, shows
`Name is required`. -/
theorem name_field_valid_iff (field : FormField) (page : List ErrorElement)
    (hn : field.name = "name") :
    ((validateField field page).valid = true ↔
      2 ≤ (JsString.trim field.value).length ∧
      ∀ c ∈ JsString.trim field.value,
        JsString.isLetter c = true ∨ JsString.isWhiteSpace c = true) ∧
    ((∀ c ∈ field.value, JsString.isWhiteSpace c = true) →
      (validateField field page).valid = false ∧
      (validateField field page).field.borderColor = "var(--destructive)" ∧
      getElementById (validateField field page).page "name-error"
        = (getElementById page "name-error").map (fun e =>
            { e with textContent := "Name is required", display := "block" })) := by
  rw [validateField_name field page hn]
  constructor
  · generalize JsString.trim field.value = w
    have hp := namePattern_iff w
    cases w with
    | nil => simp
    | cons c w =>
      by_cases h1 : (c :: w).length < 2
      · simp only [List.isEmpty_cons, Bool.false_eq_true, if_false, h1, if_true]
        constructor
        · intro x; cases x
        · intro x; omega
      · by_cases h2 : namePattern (c :: w) = true
        · simp only [List.isEmpty_cons, Bool.false_eq_true, if_false, h1, h2, Bool.not_true,
            true_iff]
          exact ⟨by omega, (hp.mp h2).2⟩
        · have h3 : namePattern (c :: w) = false := by simpa using h2
          simp only [List.isEmpty_cons, Bool.false_eq_true, if_false, h1, h3, Bool.not_false,
            if_true, false_iff]
          intro x
          exact h2 (hp.mpr ⟨by simp, x.2⟩)
  · intro h
    rw [JsString.trim_eq_nil _ h]
    exact ⟨rfl, rfl, getElementById_shown page "name-error" "Name is required"⟩

/-- Witness of `name_field_valid_iff`: a name with a digit is rejected. -/
theorem name_field_valid_iff_witness :
    ¬ (validateField sampleName samplePage).valid = true :=
  fun h => absurd ((name_field_valid_iff sampleName samplePage rfl).1.mp h).2 (by decide)

/-- C16, failing input: the name `a<TAB>b` is three code units, the middle one
(9, the tab) neither a letter of `a-z`, `A-Z` nor the space (32), so it does not
consist of letters and spaces only; yet `validateField` returns true on it and
leaves the field with the plain border and the page without any error text, and
the `input` listener of the name field keeps the tab. The class `\s` of the
pattern and of the replacement lets it through, against the comment `only
letters and spaces` and the message `letters and spaces only` of the rule. -/
theorem name_with_tab_is_accepted :
    tabbedName.name = "name" ∧
    JsString.trim tabbedName.value = [97, 9, 98] ∧
    (JsString.isLetter 9 = false ∧ (9 : Nat) ≠ 32) ∧
    ¬ (∀ c ∈ JsString.trim tabbedName.value, JsString.isLetter c = true ∨ c = 32) ∧
    validateField tabbedName samplePage
      = FieldResult.mk true { tabbedName with borderColor := "var(--border)" } samplePage ∧
    nameInputFilter tabbedName.value = tabbedName.value ∧
    (onNameInput tabbedName samplePage).1.value = [97, 9, 98] := by
  refine ⟨rfl, by decide, by decide, by decide, by decide, by decide, by decide⟩

/-! ## The name filter -/

theorem nameInputFilter_trim_class (v : JsString) :
    ∀ c ∈ JsString.trim (nameInputFilter v),
      JsString.isLetter c = true ∨ JsString.isWhiteSpace c = true := by
  intro c hc
  have h1 := JsString.mem_of_mem_trim _ c hc
  unfold nameInputFilter at h1
  rw [List.mem_filter] at h1
  simpa using h1.2

/-- C20: after the `input` listener of the name field has run on any value, the
value of the field is what `replace(/[^a-zA-Z\s]/g, "")` keeps, and
`validateField` accepts it whenever its trimmed length is at least 2. The pattern
check never fails on it: when the field is rejected, the trimmed length is below
2 and the message shown is the one for an empty value or the one for a value
that is too short. -/
theorem filtered_name_never_fails_pattern (field : FormField) (page later : List ErrorElement)
    (hn : field.name = "name") :
    (onNameInput field page).1.value = nameInputFilter field.value ∧
    (JsString.trim (onNameInput field page).1.value ≠ [] →
      namePattern (JsString.trim (onNameInput field page).1.value) = true) ∧
    (2 ≤ (JsString.trim (onNameInput field page).1.value).length →
      (validateField (onNameInput field page).1 later).valid = true) ∧
    ((validateField (onNameInput field page).1 later).valid = false →
      (JsString.trim (onNameInput field page).1.value).length < 2 ∧
      getElementById (validateField (onNameInput field page).1 later).page "name-error"
        = (getElementById later "name-error").map (fun e =>
            { e with
              textContent :=
                if (JsString.trim (onNameInput field page).1.value).isEmpty then
                  "Name is required"
                else "Name must be at least 2 characters"
              display := "block" })) := by
  have hv : (onNameInput field page).1.value = nameInputFilter field.value := rfl
  have hname : (onNameInput field page).1.name = "name" := hn
  have hall := nameInputFilter_trim_class field.value
  rw [validateField_name _ later hname, hv]
  generalize JsString.trim (nameInputFilter field.value) = w at hall
  have hp := namePattern_iff w
  refine ⟨rfl, fun hne => hp.mpr ⟨hne, hall⟩, ?_, ?_⟩
  · intro h2
    have hne : w ≠ [] := by intro e; rw [e] at h2; simp at h2
    have h3 : namePattern w = true := hp.mpr ⟨hne, hall⟩
    have h4 : w.isEmpty = false := by cases w <;> simp_all
    have h5 : ¬ w.length < 2 := by omega
    simp [h3, h4, h5]
  · cases w with
    | nil =>
      intro _
      exact ⟨by simp, getElementById_shown later "name-error" "Name is required"⟩
    | cons c w =>
      have h3 : namePattern (c :: w) = true := hp.mpr ⟨by simp, hall⟩
      by_cases h1 : (c :: w).length < 2
      · intro _
        simp only [List.isEmpty_cons, Bool.false_eq_true, if_false, h1, if_true]
        exact ⟨trivial, getElementById_shown later "name-error"
          "Name must be at least 2 characters"⟩
      · intro hx
        simp only [List.isEmpty_cons, Bool.false_eq_true, if_false, h1, h3, Bool.not_true]
          at hx
        cases hx

/-- Witness of `filtered_name_never_fails_pattern`: the digit of `Al4` is
removed, and the two letters left are accepted. -/
theorem filtered_name_never_fails_pattern_witness :
    (onNameInput sampleName samplePage).1.value = JsString.ofString "Al" ∧
    (validateField (onNameInput sampleName samplePage).1 samplePage).valid = true :=
  ⟨by decide,
   (filtered_name_never_fails_pattern sampleName samplePage samplePage rfl).2.2.1
     (by decide)⟩

/-! ## Validation of the form -/

theorem validateField_valid_page (f : FormField) (p q : List ErrorElement) :
    (validateField f p).valid = (validateField f q).valid := by
  unfold validateField
  cases hr : validationRules f.name with
  | none => simp only [hr]
  | some rules =>
    simp only [hr]
    split_ifs <;> rfl

theorem validateField_field_page (f : FormField) (p q : List ErrorElement) :
    (validateField f p).field = (validateField f q).field := by
  unfold validateField
  cases hr : validationRules f.name with
  | none => simp only [hr]
  | some rules =>
    simp only [hr]
    split_ifs <;> rfl

theorem validateField_frame (f : FormField) (p : List ErrorElement) :
    (validateField f p).field.tag = f.tag ∧ (validateField f p).field.name = f.name ∧
    (validateField f p).field.value = f.value ∧
    (validateField f p).field.required = f.required := by
  unfold validateField
  cases hr : validationRules f.name with
  | none => simp only [hr, and_self]
  | some rules =>
    simp only [hr]
    split_ifs <;> exact ⟨rfl, rfl, rfl, rfl⟩

theorem validateField_invalid_border (f : FormField) (p : List ErrorElement)
    (h : (validateField f p).valid = false) :
    (validateField f p).field.borderColor = "var(--destructive)" := by
  unfold validateField at h ⊢
  cases hr : validationRules f.name with
  | none => simp only [hr] at h; cases h
  | some rules =>
    simp only [hr] at h ⊢
    split_ifs at h ⊢ <;> rfl

theorem forEachRequired_spec (fs : List FormField) :
    ∀ (b : Bool) (p : List ErrorElement),
      (forEachRequired fs b p).valid
        = (b && fs.all (fun f => !selRequired f || (validateField f []).valid)) ∧
      (forEachRequired fs b p).fields
        = fs.map (fun f => if selRequired f then (validateField f []).field else f) := by
  induction fs with
  | nil => intro b p; simp [forEachRequired]
  | cons f fs ih =>
    intro b p
    unfold forEachRequired
    by_cases hs : selRequired f = true
    · have hs2 : (f.tag != Tag.select && f.required) = true := hs
      simp only [hs2, if_true, List.all_cons, List.map_cons, hs, Bool.not_true, Bool.false_or]
      rw [(ih _ _).1, (ih _ _).2, validateField_valid_page f p [], validateField_field_page f p []]
      cases (validateField f []).valid <;> cases b <;> simp
    · have hs3 : selRequired f = false := by simpa using hs
      have hs2 : (f.tag != Tag.select && f.required) = false := hs3
      simp only [hs2, Bool.false_eq_true, if_false, List.all_cons, List.map_cons, hs3,
        Bool.not_false, Bool.true_or, Bool.true_and]
      exact ⟨(ih b p).1, congrArg (List.cons f) (ih b p).2⟩

theorem forEachOptional_spec (fs : List FormField) :
    ∀ (b : Bool) (p : List ErrorElement),
      (forEachOptional fs b p).valid
        = (b && fs.all (fun f => !selOptional f || (validateField f []).valid)) ∧
      (forEachOptional fs b p).fields
        = fs.map (fun f => if selOptional f then (validateField f []).field else f) := by
  induction fs with
  | nil => intro b p; simp [forEachOptional]
  | cons f fs ih =>
    intro b p
    unfold forEachOptional
    by_cases h1 : (f.tag != Tag.select && !f.required) = true
    · by_cases h2 : (!(JsString.trim f.value).isEmpty) = true
      · have hs : selOptional f = true := by simp only [selOptional, h1, h2, Bool.and_self]
        simp only [h1, h2, if_true, List.all_cons, List.map_cons, hs, Bool.not_true,
          Bool.false_or]
        rw [(ih _ _).1, (ih _ _).2, validateField_valid_page f p [],
          validateField_field_page f p []]
        cases (validateField f []).valid <;> cases b <;> simp
      · have h3 : (!(JsString.trim f.value).isEmpty) = false := by simpa using h2
        have hs : selOptional f = false := by simp only [selOptional, h1, h3, Bool.and_false]
        simp only [h1, h3, if_true, Bool.false_eq_true, if_false, List.all_cons,
          List.map_cons, hs, Bool.not_false, Bool.true_or, Bool.true_and]
        exact ⟨(ih b p).1, congrArg (List.cons f) (ih b p).2⟩
    · have h3 : (f.tag != Tag.select && !f.required) = false := by simpa using h1
      have hs : selOptional f = false := by simp only [selOptional, h3, Bool.false_and]
      simp only [h3, Bool.false_eq_true, if_false, List.all_cons, List.map_cons, hs,
        Bool.not_false, Bool.true_or, Bool.true_and]
      exact ⟨(ih b p).1, congrArg (List.cons f) (ih b p).2⟩

theorem selOptional_of_required (f : FormField) (h : f.required = true) :
    selOptional f = false := by
  simp [selOptional, h]

theorem selRequired_required (f : FormField) (h : selRequired f = true) :
    f.required = true := by
  simp only [selRequired, Bool.and_eq_true] at h
  exact h.2

theorem selOptional_after_required (f : FormField) :
    (!selOptional (if selRequired f then (validateField f []).field else f) ||
      (validateField (if selRequired f then (validateField f []).field else f) []).valid)
      = (!selOptional f || (validateField f []).valid) := by
  by_cases h : selRequired f = true
  · have hr := selRequired_required f h
    have hr2 : (validateField f []).field.required = true := by
      rw [(validateField_frame f []).2.2.2]; exact hr
    simp only [h, if_true, selOptional_of_required _ hr, selOptional_of_required _ hr2,
      Bool.not_false, Bool.true_or]
  · have h2 : selRequired f = false := by simpa using h
    simp only [h2, Bool.false_eq_true, if_false]

theorem fields_after_both (f : FormField) (page : List ErrorElement) :
    (if selOptional (if selRequired f then (validateField f []).field else f) then
        (validateField (if selRequired f then (validateField f []).field else f) []).field
      else (if selRequired f then (validateField f []).field else f))
      = (if (selRequired f || selOptional f) = true then (validateField f page).field
         else f) := by
  by_cases h : selRequired f = true
  · have hr := selRequired_required f h
    have hr2 : (validateField f []).field.required = true := by
      rw [(validateField_frame f []).2.2.2]; exact hr
    simp only [h, if_true, selOptional_of_required _ hr2, Bool.false_eq_true, if_false,
      Bool.true_or]
    exact validateField_field_page f [] page
  · have h2 : selRequired f = false := by simpa using h
    simp only [h2, Bool.false_eq_true, if_false, Bool.false_or]
    rw [validateField_field_page f [] page]

theorem validateForm_spec (fields : List FormField) (page : List ErrorElement) :
    (validateForm fields page).valid
      = fields.all (fun f => (!selRequired f || (validateField f []).valid) &&
          (!selOptional f || (validateField f []).valid)) ∧
    (validateForm fields page).fields
      = fields.map (fun f =>
          if (selRequired f || selOptional f) = true then (validateField f page).field
          else f) := by
  unfold validateForm
  simp only []
  rw [(forEachOptional_spec _ _ _).1, (forEachOptional_spec _ _ _).2,
    (forEachRequired_spec _ _ _).1, (forEachRequired_spec _ _ _).2]
  constructor
  · rw [List.all_map, Bool.true_and]
    have e : ((fun f => !selOptional f || (validateField f []).valid) ∘
        fun f => if selRequired f = true then (validateField f []).field else f)
        = fun f => !selOptional f || (validateField f []).valid := by
      funext f
      exact selOptional_after_required f
    rw [e]
    induction fields with
    | nil => rfl
    | cons f fs ih =>
      simp only [List.all_cons]
      rw [← ih]
      cases (!selRequired f || (validateField f []).valid) <;>
        cases (!selOptional f || (validateField f []).valid) <;> simp
  · rw [List.map_map]
    apply List.map_congr_left
    intro f _
    exact fields_after_both f page

/-- C17: for every list of form controls, `validateForm` returns true exactly
when every `input` or `textarea` with the attribute `required` passes
`validateField` and every one without it whose trimmed value is not empty passes
`validateField`. It does not stop at the first failure: every such control is
left as `validateField` leaves it, so each one that fails has the error border,
whatever failed before it. -/
theorem validateForm_checks_every_field (fields : List FormField)
    (page : List ErrorElement) :
    ((validateForm fields page).valid = true ↔
      (∀ f ∈ fields, f.tag ≠ Tag.select → f.required = true →
        ∀ p, (validateField f p).valid = true) ∧
      (∀ f ∈ fields, f.tag ≠ Tag.select → f.required = false →
        JsString.trim f.value ≠ [] → ∀ p, (validateField f p).valid = true)) ∧
    (validateForm fields page).fields
      = fields.map (fun f =>
          if (selRequired f || selOptional f) = true then (validateField f page).field
          else f) ∧
    (∀ (i : Nat) (f : FormField), fields[i]? = some f →
      (selRequired f || selOptional f) = true → (validateField f page).valid = false →
      ∃ g, (validateForm fields page).fields[i]? = some g ∧
        g.borderColor = "var(--destructive)") := by
  obtain ⟨hv, hf⟩ := validateForm_spec fields page
  refine ⟨?_, hf, ?_⟩
  · rw [hv, List.all_eq_true]
    constructor
    · intro h
      constructor
      · intro f hm ht hr p
        have x := h f hm
        have hs : selRequired f = true := by simp [selRequired, ht, hr]
        rw [validateField_valid_page f p []]
        simp [hs] at x
        exact x.1
      · intro f hm ht hr hne p
        have x := h f hm
        have hs : selOptional f = true := by
          cases hv2 : JsString.trim f.value with
          | nil => exact absurd hv2 hne
          | cons c w => simp [selOptional, ht, hr, hv2]
        rw [validateField_valid_page f p []]
        simp [hs] at x
        exact x.2
    · rintro ⟨h1, h2⟩ f hm
      rw [Bool.and_eq_true]
      constructor
      · by_cases hs : selRequired f = true
        · have hs' := hs
          simp only [selRequired, Bool.and_eq_true, bne_iff_ne, ne_eq] at hs'
          simp [hs, h1 f hm hs'.1 hs'.2 []]
        · simp [hs]
      · by_cases hs : selOptional f = true
        · have hs' := hs
          simp only [selOptional, Bool.and_eq_true, bne_iff_ne, ne_eq, Bool.not_eq_true',
            List.isEmpty_eq_false] at hs'
          simp [hs, h2 f hm hs'.1.1 hs'.1.2 hs'.2 []]
        · simp [hs]
  · intro i f hi hs hinv
    refine ⟨(validateField f page).field, ?_, validateField_invalid_border f page hinv⟩
    rw [hf, List.getElem?_map, hi]
    simp only [Option.map_some', hs, if_true]

/-- Witness of `validateForm_checks_every_field`: in a form whose first control
fails, the fourth control (an optional phone holding letters) is validated all
the same and gets the error border. -/
theorem validateForm_checks_every_field_witness :
    (validateForm sampleForm samplePage).valid = false ∧
    ∃ g, (validateForm sampleForm samplePage).fields[3]? = some g ∧
      g.borderColor = "var(--destructive)" :=
  ⟨by decide,
   (validateForm_checks_every_field sampleForm samplePage).2.2 3 _ rfl (by decide)
     (by decide)⟩

/-! ## The gallery -/

theorem renderItems_getElem? (items : List GalleryItem) :
    ∀ (k i : Nat), (GalleryManager.renderItems k items)[i]?
      = (items[i]?).map (fun item => GalleryManager.renderItem item (k + i)) := by
  induction items with
  | nil => intro k i; simp [GalleryManager.renderItems]
  | cons item rest ih =>
    intro k i
    cases i with
    | zero => simp [GalleryManager.renderItems]
    | succ i =>
      simp only [GalleryManager.renderItems, List.getElem?_cons_succ]
      rw [ih (k + 1) i]
      have e : k + 1 + i = k + (i + 1) := by omega
      rw [e]

theorem renderItems_length (items : List GalleryItem) :
    ∀ k : Nat, (GalleryManager.renderItems k items).length = items.length := by
  induction items with
  | nil => intro k; rfl
  | cons item rest ih =>
    intro k
    simp [GalleryManager.renderItems, ih (k + 1)]

/-- C18: when the grid exists, `renderGallery` renders, in their original order,
all the gallery items when the current filter is `all`, and otherwise exactly the
items whose category equals the filter (none when no item has that category):
the list rendered is then a sublist of the gallery items, an item is in it if and
only if it is a gallery item whose category is the filter, and it is there as
many times as among the gallery items. The `i`-th element rendered has the
category of the `i`-th item of that list as `data-category`, its image as `src`,
its caption as `alt`, and the index `i` in its animation delay. A click on the
`i`-th rendered element calls `openModal` with the image and the caption of that
`i`-th item, and when the elements of the modal exist the modal is displayed with
that image and that caption, the body no longer scrolling. -/
theorem renderGallery_filters_and_opens (g : GalleryManager) (before : GalleryGrid)
    (hg : g.galleryGrid = some before) :
    ∃ grid, g.renderGallery.galleryGrid = some grid ∧
      grid.filteredItems =
        (if g.currentFilter = some "all" then g.galleryItems
         else g.galleryItems.filter (fun item => some item.category == g.currentFilter)) ∧
      (g.currentFilter = some "all" → grid.filteredItems = g.galleryItems) ∧
      (g.currentFilter ≠ some "all" →
        grid.filteredItems.Sublist g.galleryItems ∧
        (∀ item, item ∈ grid.filteredItems ↔
          item ∈ g.galleryItems ∧ some item.category = g.currentFilter) ∧
        (∀ item, some item.category = g.currentFilter →
          grid.filteredItems.count item = g.galleryItems.count item)) ∧
      grid.elements.length = grid.filteredItems.length ∧
      (∀ i item, grid.filteredItems[i]? = some item →
        grid.elements[i]? = some (GalleryManager.renderItem item i) ∧
        grid.elements[i]? = some (GalleryElement.mk item.category item.image item.caption i) ∧
        g.renderGallery.onItemClick i = g.renderGallery.openModal item.image item.caption) ∧
      (∀ i item d m c, grid.filteredItems[i]? = some item →
        g.modal = some d → g.modalImage = some m → g.modalCaption = some c →
        ∃ g2, g.renderGallery.onItemClick i = .ok g2 ∧ g2.modalImage = some item.image ∧
          g2.modalCaption = some item.caption ∧ g2.modal = some "flex" ∧
          g2.bodyOverflow = "hidden" ∧ g2.galleryGrid = some grid) ∧
      (g.currentFilter ≠ some "all" →
        (∀ item ∈ g.galleryItems, some item.category ≠ g.currentFilter) →
        grid.elements = []) := by
  have hr : g.renderGallery = g.rendered := by
    simp [GalleryManager.renderGallery, GalleryManager.rendered, hg]
  have hclick : ∀ i item, g.filteredItems[i]? = some item →
      g.renderGallery.onItemClick i = g.renderGallery.openModal item.image item.caption := by
    intro i item hi
    have hlt : i < g.filteredItems.length := by
      by_contra hn
      rw [List.getElem?_eq_none (by omega)] at hi
      cases hi
    rw [hr]
    simp only [GalleryManager.onItemClick, GalleryManager.rendered, renderItems_length, hlt,
      if_true, List.get?_eq_getElem?, hi]
  have hother : g.currentFilter ≠ some "all" → g.filteredItems =
      g.galleryItems.filter (fun item => some item.category == g.currentFilter) := by
    intro hne
    unfold GalleryManager.filteredItems
    rw [if_neg hne]
  refine ⟨GalleryGrid.mk (GalleryManager.renderItems 0 g.filteredItems) g.filteredItems,
    by rw [hr]; rfl, rfl, ?_, ?_, renderItems_length _ 0, ?_, ?_, ?_⟩
  · intro hall
    show g.filteredItems = g.galleryItems
    unfold GalleryManager.filteredItems
    rw [if_pos hall]
  · intro hne
    show g.filteredItems.Sublist g.galleryItems ∧
      (∀ item, item ∈ g.filteredItems ↔
        item ∈ g.galleryItems ∧ some item.category = g.currentFilter) ∧
      (∀ item, some item.category = g.currentFilter →
        g.filteredItems.count item = g.galleryItems.count item)
    rw [hother hne]
    refine ⟨List.filter_sublist _, ?_, ?_⟩
    · intro item
      simp [List.mem_filter]
    · intro item hi
      exact List.count_filter (by simpa using hi)
  · intro i item hi
    have hi2 : g.filteredItems[i]? = some item := hi
    have he : (GalleryManager.renderItems 0 g.filteredItems)[i]?
        = some (GalleryManager.renderItem item i) := by
      rw [renderItems_getElem?, hi2, Nat.zero_add]
      rfl
    exact ⟨he, he, hclick i item hi⟩
  · intro i item d m c hi hd hm hc
    rw [hclick i item hi, hr]
    simp only [GalleryManager.openModal, GalleryManager.rendered, hd, hm, hc]
    exact ⟨_, rfl, rfl, rfl, rfl, rfl, rfl⟩
  · intro hne hnone
    show GalleryManager.renderItems 0 g.filteredItems = []
    have he : g.filteredItems = [] := by
      rw [hother hne, List.filter_eq_nil_iff]
      intro item hm
      have := hnone item hm
      simpa using this
    rw [he]
    rfl

/-- Witness of `renderGallery_filters_and_opens`: with the filter `personal` the
gallery of the source renders three elements, the second one being that of the
item of id 5, and a click on it opens the modal on that item. -/
theorem renderGallery_filters_and_opens_witness :
    ∃ grid, personalGallery.renderGallery.galleryGrid = some grid ∧
      grid.elements.length = 3 ∧
      grid.elements[1]? = some (GalleryElement.mk "personal"
        "public/professional-security-guard-in-suit-protecting-vip.jpg"
        "Elite personal security detail in action" 1) ∧
      ∃ g2, personalGallery.renderGallery.onItemClick 1 = .ok g2 ∧
        g2.modalImage
          = some "public/professional-security-guard-in-suit-protecting-vip.jpg" ∧
        g2.modalCaption = some "Elite personal security detail in action" := by
  obtain ⟨grid, h1, h2, _, _, h3, h4, h5, _⟩ :=
    renderGallery_filters_and_opens personalGallery _ rfl
  have e : grid.filteredItems = personalGallery.filteredItems := by
    rw [h2]; rfl
  have hi : grid.filteredItems[1]? = some (GalleryManager.data.get ⟨4, by decide⟩) := by
    rw [e]; decide
  refine ⟨grid, h1, by rw [h3, e]; decide, (h4 1 _ hi).2.1, ?_⟩
  obtain ⟨g2, a, b, c, _⟩ := h5 1 _ "none" "" "" hi (by decide) (by decide) (by decide)
  exact ⟨g2, a, b, c⟩

/-! ## The phone field -/

theorem validationRules_phone :
    validationRules "phone" = some
      { required := false, minLength := none, maxLength := none, pattern := some phonePattern,
        message := some "Please enter a valid phone number" } := rfl

/-- The three outcomes of `validateField` on a field named `phone`. -/
theorem validateField_phone (field : FormField) (page : List ErrorElement)
    (hn : field.name = "phone") :
    validateField field page =
      if (JsString.trim field.value).isEmpty then
        { valid := true, field := { field with borderColor := "var(--border)" },
          page := setErrorElement page "phone-error" "" "none" }
      else if !phonePattern (JsString.trim field.value) then
        { valid := false, field := { field with borderColor := "var(--destructive)" },
          page := shownError page "phone" "Please enter a valid phone number" }
      else
        { valid := true, field := { field with borderColor := "var(--border)" },
          page := setErrorElement page "phone-error" "" "none" } := by
  have id1 : "phone" ++ "-error" = "phone-error" := by decide
  unfold validateField
  simp only [hn, validationRules_phone, tooShort, tooLong, patternFails, showFieldError,
    clearFieldError, Option.getD_some, id1, shownError]
  generalize JsString.trim field.value = w
  cases w with
  | nil => simp
  | cons c w =>
    by_cases h2 : phonePattern (c :: w) = true
    · simp [h2]
    · simp [h2]

theorem phonePattern_plus (r : JsString) :
    phonePattern (43 :: r) =
      match r with
      | d :: rest => (49 ≤ d && d ≤ 57) && rest.all JsString.isDigit && rest.length ≤ 15
      | [] => false := rfl

theorem phonePattern_digit (c : Nat) (r : JsString) (hc : c ≠ 43) :
    phonePattern (c :: r)
      = ((49 ≤ c && c ≤ 57) && r.all JsString.isDigit && r.length ≤ 15) := by
  unfold phonePattern
  split
  · rename_i rest heq
    cases heq
    exact absurd rfl hc
  · rfl

theorem digits_form (d : Nat) (rest : JsString) :
    ((49 ≤ d && d ≤ 57) && rest.all JsString.isDigit && rest.length ≤ 15) = true ↔
      (1 ≤ (d :: rest).length ∧ (d :: rest).length ≤ 16 ∧
        (∀ x ∈ d :: rest, JsString.isDigit x = true) ∧ (d :: rest).head? ≠ some 48) := by
  simp only [Bool.and_eq_true, decide_eq_true_eq, List.all_eq_true, List.length_cons,
    List.mem_cons, forall_eq_or_imp, List.head?_cons, ne_eq, Option.some.injEq,
    JsString.isDigit]
  constructor
  · rintro ⟨⟨⟨h1, h2⟩, h3⟩, h4⟩
    exact ⟨by omega, by omega, ⟨⟨by omega, h2⟩, h3⟩, by omega⟩
  · rintro ⟨_, h2, ⟨⟨h3, h4⟩, h5⟩, h6⟩
    exact ⟨⟨⟨by omega, h4⟩, h5⟩, by omega⟩

theorem phonePattern_iff (w : JsString) : phonePattern w = true ↔ IsPhoneNumber w := by
  cases w with
  | nil =>
    constructor
    · intro h; cases h
    · rintro ⟨digits, h | h, h1, _⟩
      · subst h; simp at h1
      · cases h
  | cons c r =>
    by_cases hc : c = 43
    · subst hc
      rw [phonePattern_plus]
      cases r with
      | nil =>
        constructor
        · intro h; cases h
        · rintro ⟨digits, h | h, h1, _, h3, _⟩
          · subst h
            have := h3 43 (by simp)
            simp [JsString.isDigit] at this
          · cases h
            simp at h1
      | cons d rest =>
        simp only []
        rw [digits_form]
        constructor
        · intro h
          exact ⟨d :: rest, Or.inr rfl, h⟩
        · rintro ⟨digits, h | h, h1⟩
          · subst h
            have := h1.2.2.1 43 (by simp)
            simp [JsString.isDigit] at this
          · cases h
            exact h1
    · rw [phonePattern_digit c r hc, digits_form]
      constructor
      · intro h
        exact ⟨c :: r, Or.inl rfl, h⟩
      · rintro ⟨digits, h | h, h1⟩
        · subst h
          exact h1
        · cases h
          exact absurd rfl hc

theorem isPhoneNumber_chars (w : JsString) (h : IsPhoneNumber w) :
    ∀ c ∈ w, JsString.isDigit c = true ∨ c = 43 := by
  obtain ⟨digits, hw, _, _, hd, _⟩ := h
  intro c hc
  rcases hw with e | e
  · subst e
    exact Or.inl (hd c hc)
  · subst e
    rcases List.mem_cons.mp hc with e2 | e2
    · exact Or.inr e2
    · exact Or.inl (hd c e2)

theorem JsString.mem_trim_or_whiteSpace (v : JsString) (c : Nat) (hc : c ∈ v) :
    JsString.isWhiteSpace c = true ∨ c ∈ JsString.trim v := by
  rw [← List.takeWhile_append_dropWhile JsString.isWhiteSpace v, List.mem_append] at hc
  rcases hc with h | h
  · exact Or.inl (List.mem_takeWhile_imp h)
  · rw [← List.mem_reverse,
      ← List.takeWhile_append_dropWhile JsString.isWhiteSpace
        (List.dropWhile JsString.isWhiteSpace v).reverse, List.mem_append] at h
    rcases h with h2 | h2
    · exact Or.inl (List.mem_takeWhile_imp h2)
    · right
      unfold JsString.trim
      rw [List.mem_reverse]
      exact h2

theorem validateField_phone_valid (field : FormField) (page : List ErrorElement)
    (hn : field.name = "phone") :
    (validateField field page).valid = true ↔
      JsString.trim field.value = [] ∨ IsPhoneNumber (JsString.trim field.value) := by
  rw [validateField_phone field page hn]
  generalize JsString.trim field.value = w
  have hp := phonePattern_iff w
  cases w with
  | nil => simp
  | cons c w =>
    by_cases h2 : phonePattern (c :: w) = true
    · simp only [List.isEmpty_cons, Bool.false_eq_true, if_false, h2, Bool.not_true, true_iff]
      exact Or.inr (hp.mp h2)
    · have h3 : phonePattern (c :: w) = false := by simpa using h2
      simp only [List.isEmpty_cons, Bool.false_eq_true, if_false, h3, Bool.not_false, if_true,
        false_iff]
      rintro (h | h)
      · cases h
      · exact h2 (hp.mpr h)

/-- C21, as stated, fails: the value made of a space and the digit `1` is not
empty and `validateField` accepts it for the phone field (it tests the trimmed
value), yet it is not an optional `+` followed by digits. -/
theorem accepted_phone_with_leading_space :
    (phoneField [32, 49]).value ≠ [] ∧
    (validateField (phoneField [32, 49]) []).valid = true ∧
    ¬ IsPhoneNumber (phoneField [32, 49]).value := by
  refine ⟨by decide, by decide, ?_⟩
  rintro ⟨digits, h | h, _, _, h3, _⟩
  · have e : digits = [32, 49] := h.symm
    subst e
    have := h3 32 (by simp)
    simp [JsString.isDigit] at this
  · cases h

/-- C21 (amended): `validateField` accepts a value for the optional phone field
exactly when its trimmed form is empty or is an optional `+` followed by 1 to 16
digits whose first digit is not `0`; white space around such a number is
accepted with it. Every accepted value is left unchanged by the phone input
filter, and an empty or white-space-only value is accepted. -/
theorem accepted_phone_values (field : FormField) (page : List ErrorElement)
    (hn : field.name = "phone") :
    ((validateField field page).valid = true ↔
      JsString.trim field.value = [] ∨ IsPhoneNumber (JsString.trim field.value)) ∧
    ((validateField field page).valid = true →
      phoneInputFilter field.value = field.value) ∧
    ((∀ c ∈ field.value, JsString.isWhiteSpace c = true) →
      (validateField field page).valid = true) := by
  have hv := validateField_phone_valid field page hn
  refine ⟨hv, ?_, ?_⟩
  · intro h
    unfold phoneInputFilter
    rw [List.filter_eq_self]
    intro c hc
    rcases JsString.mem_trim_or_whiteSpace field.value c hc with hw | ht
    · simp [hw]
    · rcases hv.mp h with e | e
      · rw [e] at ht
        cases ht
      · rcases isPhoneNumber_chars _ e c ht with hd | hplus
        · simp [hd]
        · simp [hplus]
  · intro h
    exact hv.mpr (Or.inl (JsString.trim_eq_nil _ h))

/-- Witness of `accepted_phone_values`: a number of eleven digits after `+`,
between spaces, is accepted and the filter leaves it as it is. -/
theorem accepted_phone_values_witness :
    (validateField (phoneField (JsString.ofString " +15551234567 ")) samplePage).valid = true ∧
    phoneInputFilter (phoneField (JsString.ofString " +15551234567 ")).value
      = (phoneField (JsString.ofString " +15551234567 ")).value :=
  have w := accepted_phone_values (phoneField (JsString.ofString " +15551234567 ")) samplePage rfl
  ⟨by decide, w.2.1 (by decide)⟩

/-! ## The theme -/

theorem Storage.getItem_setItem (storage : Storage) (key value : String) :
    Storage.getItem (Storage.setItem storage key value) key = some value := by
  induction storage with
  | nil => simp [Storage.setItem, Storage.getItem, List.lookup]
  | cons p rest ih =>
    obtain ⟨k, v⟩ := p
    unfold Storage.setItem
    by_cases h : (key == k) = true
    · simp [Storage.getItem, List.lookup, h]
    · have h2 : (key == k) = false := by simpa using h
      simp only [h2, Bool.false_eq_true, if_false]
      simp only [Storage.getItem, List.lookup, h2] at ih ⊢
      exact ih

theorem ThemeManager.toggle_theme (s : ThemeManager) :
    s.toggle.theme = (if s.theme = "light" then "dark" else "light") := rfl

theorem ThemeManager.toggle_stored (s : ThemeManager) :
    s.toggle.localStorage.getItem "theme" = some s.toggle.theme :=
  Storage.getItem_setItem s.localStorage "theme" _

theorem ThemeManager.toggle_twice_theme (s : ThemeManager)
    (h : s.theme = "light" ∨ s.theme = "dark") : s.toggle.toggle.theme = s.theme := by
  rw [ThemeManager.toggle_theme, ThemeManager.toggle_theme]
  rcases h with h | h <;> rw [h] <;> decide

/-- C22, as stated, fails: on a first visit nothing is stored and the theme is
`light`; two toggles give the theme `light` again, but the key `theme` now holds
`light` where it held nothing. The same happens over a stored empty string. -/
theorem two_toggles_leave_a_stored_theme :
    themeFirstVisit.theme = "light" ∧
    themeFirstVisit.localStorage.getItem "theme" = none ∧
    themeFirstVisit.toggle.toggle.theme = "light" ∧
    themeFirstVisit.toggle.toggle.localStorage.getItem "theme" = some "light" ∧
    themeEmptyStored.theme = "light" ∧
    themeEmptyStored.localStorage.getItem "theme" = some "" ∧
    themeEmptyStored.toggle.toggle.theme = "light" ∧
    themeEmptyStored.toggle.toggle.localStorage.getItem "theme" = some "light" := by
  decide

/-- C22 (amended): in every state of the theme manager, whatever is stored, after
`toggle` the theme is `light` or `dark` and the key `theme` holds it. When the
theme is `light` or `dark`, two toggles in a row restore the theme and leave it
stored under the key `theme`; that is the value stored before whenever the key
held the theme, as it does after construction over a stored `light` or `dark`.
At construction a missing value gives the theme `light`, and a stored `light` or
`dark` gives that theme. -/
theorem toggle_keeps_theme_and_storage_in_step (s : ThemeManager) (storage : Storage)
    (dataTheme themeIcon : Option String) :
    (s.toggle.theme = "light" ∨ s.toggle.theme = "dark") ∧
    s.toggle.localStorage.getItem "theme" = some s.toggle.theme ∧
    ((s.theme = "light" ∨ s.theme = "dark") →
      s.toggle.toggle.theme = s.theme ∧
      s.toggle.toggle.localStorage.getItem "theme" = some s.theme ∧
      (s.localStorage.getItem "theme" = some s.theme →
        s.toggle.toggle.localStorage.getItem "theme" = s.localStorage.getItem "theme")) ∧
    (storage.getItem "theme" = none →
      (ThemeManager.new storage dataTheme themeIcon).theme = "light") ∧
    (∀ v, storage.getItem "theme" = some v → (v = "light" ∨ v = "dark") →
      (ThemeManager.new storage dataTheme themeIcon).theme = v ∧
      (ThemeManager.new storage dataTheme themeIcon).localStorage.getItem "theme" = some v ∧
      (ThemeManager.new storage dataTheme themeIcon).toggle.toggle.theme = v ∧
      (ThemeManager.new storage dataTheme themeIcon).toggle.toggle.localStorage.getItem "theme"
        = some v) := by
  have t2 : ∀ r : ThemeManager, (r.theme = "light" ∨ r.theme = "dark") →
      r.toggle.toggle.localStorage.getItem "theme" = some r.theme := by
    intro r hr
    rw [ThemeManager.toggle_stored, ThemeManager.toggle_twice_theme r hr]
  refine ⟨?_, ThemeManager.toggle_stored s, ?_, ?_, ?_⟩
  · rw [ThemeManager.toggle_theme]
    by_cases h : s.theme = "light"
    · right; rw [if_pos h]
    · left; rw [if_neg h]
  · intro h
    exact ⟨ThemeManager.toggle_twice_theme s h, t2 s h, fun hs => by rw [t2 s h, hs]⟩
  · intro h
    show ThemeManager.initialTheme storage = "light"
    unfold ThemeManager.initialTheme
    rw [h]
  · intro v hv hl
    have e : (ThemeManager.new storage dataTheme themeIcon).theme = v := by
      show ThemeManager.initialTheme storage = v
      unfold ThemeManager.initialTheme
      rw [hv]
      rcases hl with h | h <;> rw [h] <;> decide
    have hl2 : (ThemeManager.new storage dataTheme themeIcon).theme = "light" ∨
        (ThemeManager.new storage dataTheme themeIcon).theme = "dark" := by
      rw [e]; exact hl
    refine ⟨e, hv, ?_, ?_⟩
    · rw [ThemeManager.toggle_twice_theme _ hl2, e]
    · rw [t2 _ hl2, e]

/-- Witness of `toggle_keeps_theme_and_storage_in_step`: over a stored `dark`, two
toggles give back the theme `dark` and the stored `dark`. -/
theorem toggle_keeps_theme_and_storage_in_step_witness :
    themeDarkStored.theme = "dark" ∧
    themeDarkStored.toggle.toggle.theme = "dark" ∧
    themeDarkStored.toggle.toggle.localStorage.getItem "theme"
      = themeDarkStored.localStorage.getItem "theme" :=
  have w := ((toggle_keeps_theme_and_storage_in_step themeDarkStored [] none none).2.2.1
    (Or.inr (by decide)))
  ⟨by decide, w.1, w.2.2 (by decide)⟩
